import Mathlib

/-!
Verification of the TripTailor travel-itinerary backend
(`src/backend/itinerary.js`): the three-stage orchestration pipeline
(request analysis, data gathering, itinerary synthesis), its state and
reducer model, the heuristic detail extractor, the five search-capability
adapters with their fallback policy, and the Express chat handlers.

JavaScript runtime values are shallowly embedded by `JsVal`; exceptions are
embedded with `Except String`, and a JS `try { A } catch { B }` becomes a
`match` on the `Except` result of `A`.  JSON numbers are restricted to
integers, which covers every numeric value the pipeline produces or
consumes.  Model calls and search-provider calls are oracle parameters
(`Env`), so theorems quantify over all provider behaviours, including
forced failures.
-/

/-- A JavaScript runtime value: `undefined`, `null`, booleans, (integer)
numbers, strings, arrays and plain objects (ordered key/value lists). -/
inductive JsVal where
  | undefined : JsVal
  | null : JsVal
  | bool : Bool → JsVal
  | num : Int → JsVal
  | str : String → JsVal
  | arr : List JsVal → JsVal
  | obj : List (String × JsVal) → JsVal

/-- JavaScript truthiness: `undefined`, `null`, `false`, `0` and `""` are
falsy, everything else (including every array and object) is truthy. -/
def truthy : JsVal → Bool
  | .undefined => false
  | .null => false
  | .bool b => b
  | .num n => n ≠ 0
  | .str s => s ≠ ""
  | .arr _ => true
  | .obj _ => true

/-- Association-list lookup with propositional key equality (first match). -/
def olookup : List (String × JsVal) → String → Option JsVal
  | [], _ => none
  | (k, v) :: ps, key => if key = k then some v else olookup ps key

/-- Total property read: `undefined` for a missing key and for every
non-object receiver.  (The throwing behaviour of reads on `null` and
`undefined` receivers is modelled separately by `jsGet`.) -/
def pureGet (v : JsVal) (key : String) : JsVal :=
  match v with
  | .obj ps => (olookup ps key).getD .undefined
  | _ => .undefined

/-- Property read with JavaScript exception behaviour: reading any property
of `null` or `undefined` throws a `TypeError`; a read on any other
non-object value yields `undefined`. -/
def jsGet (v : JsVal) (key : String) : Except String JsVal :=
  match v with
  | .undefined => .error "TypeError: Cannot read properties of undefined"
  | .null => .error "TypeError: Cannot read properties of null"
  | _ => .ok (pureGet v key)

/-- `true` iff property reads on the value do not throw (the value is not
`null` or `undefined`). -/
def jsAccessible : JsVal → Bool
  | .undefined => false
  | .null => false
  | _ => true

/-- Replace the value at `key` (first occurrence), or append the binding
when the key is absent — JS property assignment on a plain object. -/
def setPairs : List (String × JsVal) → String → JsVal → List (String × JsVal)
  | [], key, v => [(key, v)]
  | (k, w) :: ps, key, v =>
    if key = k then (k, v) :: ps else (k, w) :: setPairs ps key v

/-- Property assignment: only meaningful on objects (all uses in the source
assign into object literals). -/
def setField (o : JsVal) (key : String) (v : JsVal) : JsVal :=
  match o with
  | .obj ps => .obj (setPairs ps key v)
  | _ => o

/-- The pairs a value contributes under JS object spread `{...v}`:
objects give their fields, strings and arrays their indexed elements,
primitives nothing. -/
def spreadPairs : JsVal → List (String × JsVal)
  | .obj ps => ps
  | .arr xs => (xs.enum.map fun (i, x) => (toString i, x))
  | .str s => (s.toList.enum.map fun (i, c) => (toString i, .str (String.mk [c])))
  | _ => []

/-- Keys of `xs` keep their position but take `ys`'s value when overridden;
keys only in `ys` are appended in order — JS `{...x, ...y}`. -/
def mergePairs (xs ys : List (String × JsVal)) : List (String × JsVal) :=
  (xs.map fun (k, v) => (k, (olookup ys k).getD v)) ++
    ys.filter fun (k, _) => (olookup xs k).isNone

/-- JS object spread merge `{...x, ...y}` (always yields an object). -/
def objMerge (x y : JsVal) : JsVal :=
  .obj (mergePairs (spreadPairs x) (spreadPairs y))

/-- JS `||`: the first operand when truthy, otherwise the second. -/
def jsOrV (a b : JsVal) : JsVal := if truthy a then a else b

/-- JS strict equality `v === s` against a string literal: true exactly when
`v` is a string with that content. -/
def jsIsStr (v : JsVal) (s : String) : Bool :=
  match v with
  | .str t => t = s
  | _ => false

mutual

/-- JS `ToString` on a value (as used by template-literal interpolation):
arrays join their elements with commas, objects print as
`[object Object]`. -/
def jsToString : JsVal → String
  | .undefined => "undefined"
  | .null => "null"
  | .bool b => if b then "true" else "false"
  | .num n => toString n
  | .str s => s
  | .arr xs => jsToStringList xs
  | .obj _ => "[object Object]"

/-- Comma-joined rendering of array elements for `jsToString`
(`null`/`undefined` elements render as empty, per `Array.prototype.join`). -/
def jsToStringList : List JsVal → String
  | [] => ""
  | [x] =>
    match x with
    | .undefined => ""
    | .null => ""
    | v => jsToString v
  | x :: xs =>
    (match x with
     | .undefined => ""
     | .null => ""
     | v => jsToString v) ++ "," ++ jsToStringList xs

end

/-- JavaScript whitespace (the characters relevant to this codebase). -/
def isWsChar (c : Char) : Bool :=
  c = ' ' ∨ c = '\t' ∨ c = '\n' ∨ c = '\r' ∨ c = '\x0b' ∨ c = '\x0c'

/-- ASCII lowercase of a string — `String.prototype.toLowerCase` on the
inputs this codebase handles. -/
def lowerStr (s : String) : String := String.mk (s.toList.map Char.toLower)

/-- `needle` is a leading part of `hay`. -/
def listStartsWith : List Char → List Char → Bool
  | _, [] => true
  | [], _ :: _ => false
  | c :: cs, d :: ds => c = d && listStartsWith cs ds

/-- Substring containment on char lists (`String.prototype.includes`). -/
def listContainsSub : List Char → List Char → Bool
  | hay, needle =>
    if listStartsWith hay needle then true
    else
      match hay with
      | [] => false
      | _ :: rest => listContainsSub rest needle

/-- `String.prototype.includes`. -/
def jsIncludes (hay needle : String) : Bool :=
  listContainsSub hay.toList needle.toList

/-- `String.prototype.trim` (strip leading and trailing whitespace). -/
def trimJs (s : String) : String :=
  String.mk (((s.toList.dropWhile isWsChar).reverse.dropWhile isWsChar).reverse)

/-- Value of a list of decimal digit characters. -/
def digitsVal (ds : List Char) : Nat :=
  ds.foldl (fun acc c => acc * 10 + (c.toNat - '0'.toNat)) 0

/-- Value of a list of hexadecimal digit characters. -/
def hexVal (ds : List Char) : Nat :=
  ds.foldl
    (fun acc c =>
      acc * 16 +
        (if c.isDigit then c.toNat - '0'.toNat
         else if 'a' ≤ c ∧ c ≤ 'f' then c.toNat - 'a'.toNat + 10
         else c.toNat - 'A'.toNat + 10))
    0

/-- `parseInt(s)`: skip leading whitespace, optional sign, then the longest
leading digit run (hexadecimal after a `0x`/`0X` marker); `none` models
`NaN` (no digits). -/
def parseIntJs (s : String) : Option Int :=
  let l := s.toList.dropWhile isWsChar
  let (sign, l) : Int × List Char :=
    match l with
    | '-' :: rest => (-1, rest)
    | '+' :: rest => (1, rest)
    | _ => (1, l)
  match l with
  | '0' :: 'x' :: rest =>
    let ds := rest.takeWhile fun c => c.isDigit ∨ ('a' ≤ c ∧ c ≤ 'f') ∨ ('A' ≤ c ∧ c ≤ 'F')
    if ds = [] then some 0 else some (sign * hexVal ds)
  | '0' :: 'X' :: rest =>
    let ds := rest.takeWhile fun c => c.isDigit ∨ ('a' ≤ c ∧ c ≤ 'f') ∨ ('A' ≤ c ∧ c ≤ 'F')
    if ds = [] then some 0 else some (sign * hexVal ds)
  | _ =>
    let ds := l.takeWhile Char.isDigit
    if ds = [] then none else some (sign * digitsVal ds)

/-- `String(b).replace(/[,$]/g, '')` — drop every comma and dollar sign. -/
def stripCommaDollar (s : String) : String :=
  String.mk (s.toList.filter fun c => ¬ (c = ',' ∨ c = '$'))

/-- JS `ToNumber` on the values this pipeline compares numerically
(`none` models `NaN`). -/
def toNumberJs : JsVal → Option Int
  | .undefined => none
  | .null => some 0
  | .bool b => some (if b then 1 else 0)
  | .num n => some n
  | .str s =>
    let l := s.toList.dropWhile isWsChar
    if l = [] then some 0
    else
      let (sign, l) : Int × List Char :=
        match l with
        | '-' :: rest => (-1, rest)
        | '+' :: rest => (1, rest)
        | _ => (1, l)
      let ds := l.takeWhile Char.isDigit
      if ds = [] then none
      else if (l.drop ds.length).dropWhile isWsChar ≠ [] then none
      else some (sign * digitsVal ds)
  | .arr [] => some 0
  | .arr [x] => toNumberJs x
  | .arr _ => none
  | .obj _ => none

/-- JS `a > k` for a value against an integer literal: compares via
`ToNumber`; `NaN` comparisons are false. -/
def jsGtNum (v : JsVal) (k : Int) : Bool :=
  match toNumberJs v with
  | some n => n > k
  | none => false

/-- `true` exactly on the JS value `undefined`. -/
def isUndefined : JsVal → Bool
  | .undefined => true
  | _ => false

/-- JSON string escaping (the characters produced by this codebase). -/
def escapeJson (s : String) : String :=
  String.mk (s.toList.flatMap fun c =>
    if c = '"' then ['\\', '"']
    else if c = '\\' then ['\\', '\\']
    else if c = '\n' then ['\\', 'n']
    else if c = '\t' then ['\\', 't']
    else if c = '\r' then ['\\', 'r']
    else [c])

mutual

/-- `JSON.stringify`: object fields holding `undefined` are dropped, array
slots holding `undefined` serialize as `null`. -/
def stringifyJs : JsVal → String
  | .undefined => "null"
  | .null => "null"
  | .bool b => if b then "true" else "false"
  | .num n => toString n
  | .str s => "\"" ++ escapeJson s ++ "\""
  | .arr xs => "[" ++ String.intercalate "," (stringifyArr xs) ++ "]"
  | .obj ps => "\x7b" ++ String.intercalate "," (stringifyObj ps) ++ "\x7d"

def stringifyArr : List JsVal → List String
  | [] => []
  | x :: xs => stringifyJs x :: stringifyArr xs

def stringifyObj : List (String × JsVal) → List String
  | [] => []
  | (_, .undefined) :: ps => stringifyObj ps
  | (k, v) :: ps => ("\"" ++ escapeJson k ++ "\":" ++ stringifyJs v) :: stringifyObj ps

end

/-- JSON whitespace (as accepted by `JSON.parse`). -/
def isJsonWs (c : Char) : Bool :=
  c = ' ' ∨ c = '\t' ∨ c = '\n' ∨ c = '\r'

/-- Decode one JSON string-literal escape; yields the decoded character and
the unconsumed input. -/
def jsonEscape : List Char → Option (Char × List Char)
  | '"' :: rest => some ('"', rest)
  | '\\' :: rest => some ('\\', rest)
  | '/' :: rest => some ('/', rest)
  | 'n' :: rest => some ('\n', rest)
  | 't' :: rest => some ('\t', rest)
  | 'r' :: rest => some ('\r', rest)
  | 'b' :: rest => some ('\x08', rest)
  | 'f' :: rest => some ('\x0c', rest)
  | 'u' :: a :: b :: c :: d :: rest =>
    let hexDigit := fun (x : Char) => x.isDigit ∨ ('a' ≤ x ∧ x ≤ 'f') ∨ ('A' ≤ x ∧ x ≤ 'F')
    if hexDigit a ∧ hexDigit b ∧ hexDigit c ∧ hexDigit d then
      some (Char.ofNat (hexVal [a, b, c, d]), rest)
    else none
  | _ => none

/-- Parse a JSON string body (after the opening quote) up to the closing
quote. -/
def jsonStringBody (fuel : Nat) (l : List Char) : Option (String × List Char) :=
  match fuel with
  | 0 => none
  | fuel + 1 =>
    match l with
    | [] => none
    | '"' :: rest => some ("", rest)
    | '\\' :: rest =>
      match jsonEscape rest with
      | none => none
      | some (c, rest) =>
        match jsonStringBody fuel rest with
        | none => none
        | some (s, rest) => some (String.mk (c :: s.toList), rest)
    | c :: rest =>
      if c.toNat < 32 then none
      else
        match jsonStringBody fuel rest with
        | none => none
        | some (s, rest) => some (String.mk (c :: s.toList), rest)

/-- Parse a JSON integer numeral: a digit run with no leading zeros and no
trailing fraction or exponent. -/
def jsonDigits (l : List Char) : Option (Nat × List Char) :=
  let ds := l.takeWhile Char.isDigit
  let rest := l.drop ds.length
  if ds = [] then none
  else if ds.length > 1 ∧ ds.headD ' ' = '0' then none
  else
    match rest with
    | '.' :: _ => none
    | 'e' :: _ => none
    | 'E' :: _ => none
    | _ => some (digitsVal ds, rest)

mutual

/-- Parse one JSON value (integer numerals only; a fraction or exponent
fails the parse — no payload in this pipeline carries one). -/
def jsonValue (fuel : Nat) (l : List Char) : Option (JsVal × List Char) :=
  match fuel with
  | 0 => none
  | fuel + 1 =>
    match l with
    | 't' :: 'r' :: 'u' :: 'e' :: rest => some (.bool true, rest)
    | 'f' :: 'a' :: 'l' :: 's' :: 'e' :: rest => some (.bool false, rest)
    | 'n' :: 'u' :: 'l' :: 'l' :: rest => some (.null, rest)
    | '"' :: rest =>
      match jsonStringBody fuel rest with
      | none => none
      | some (s, rest) => some (.str s, rest)
    | '[' :: rest =>
      let rest := rest.dropWhile isJsonWs
      match rest with
      | ']' :: rest => some (.arr [], rest)
      | _ =>
        match jsonElems fuel rest with
        | none => none
        | some (xs, rest) => some (.arr xs, rest)
    | '\x7b' :: rest =>
      let rest := rest.dropWhile isJsonWs
      match rest with
      | '\x7d' :: rest => some (.obj [], rest)
      | _ =>
        match jsonMembers fuel rest with
        | none => none
        | some (ps, rest) => some (.obj ps, rest)
    | '-' :: rest =>
      match jsonDigits rest with
      | none => none
      | some (n, rest) => some (.num (-(n : Int)), rest)
    | _ =>
      match jsonDigits l with
      | none => none
      | some (n, rest) => some (.num (n : Int), rest)

/-- Parse the elements of a non-empty JSON array, up to and including the
closing bracket. -/
def jsonElems (fuel : Nat) (l : List Char) : Option (List JsVal × List Char) :=
  match fuel with
  | 0 => none
  | fuel + 1 =>
    match jsonValue fuel (l.dropWhile isJsonWs) with
    | none => none
    | some (v, rest) =>
      match rest.dropWhile isJsonWs with
      | ',' :: rest =>
        match jsonElems fuel rest with
        | none => none
        | some (xs, rest) => some (v :: xs, rest)
      | ']' :: rest => some ([v], rest)
      | _ => none

/-- Parse the members of a non-empty JSON object, up to and including the
closing brace. -/
def jsonMembers (fuel : Nat) (l : List Char) :
    Option (List (String × JsVal) × List Char) :=
  match fuel with
  | 0 => none
  | fuel + 1 =>
    match l.dropWhile isJsonWs with
    | '"' :: rest =>
      match jsonStringBody fuel rest with
      | none => none
      | some (k, rest) =>
        match rest.dropWhile isJsonWs with
        | ':' :: rest =>
          match jsonValue fuel (rest.dropWhile isJsonWs) with
          | none => none
          | some (v, rest) =>
            match rest.dropWhile isJsonWs with
            | ',' :: rest =>
              match jsonMembers fuel rest with
              | none => none
              | some (ps, rest) => some ((k, v) :: ps, rest)
            | '\x7d' :: rest => some ([(k, v)], rest)
            | _ => none
        | _ => none
    | _ => none

end

/-- `JSON.parse`: one value surrounded by whitespace; `none` models a
thrown `SyntaxError`. -/
def jsonParse (s : String) : Option JsVal :=
  let l := s.toList.dropWhile isJsonWs
  match jsonValue (s.length + 1) l with
  | none => none
  | some (v, rest) => if rest.dropWhile isJsonWs = [] then some v else none

/-- Case-insensitive prefix test (ASCII), for `/.../i` literals. -/
def startsWithCI (l : List Char) (pat : List Char) : Bool :=
  listStartsWith (l.map Char.toLower) (pat.map Char.toLower)

/-- Try a match at every start position, leftmost first — how a JS regex
engine without anchors looks for its match. -/
def scanSuffixes (f : List Char → Option α) : List Char → Option α
  | [] => none
  | l@(_ :: rest) =>
    match f l with
    | some r => some r
    | none => scanSuffixes f rest

/-- A character `[^,\s]` can extend a location token. -/
def isTokChar (c : Char) : Bool := ¬ (isWsChar c ∨ c = ',')

/-- The token chain `[^,\s]+(\s+[^,\s]+)*` starting at `l` (which must begin
with a token character): each entry is a token together with the whitespace
run that links it to the next entry (empty for the final token). -/
def chainToks (fuel : Nat) (l : List Char) : List (String × String) :=
  match fuel with
  | 0 => []
  | fuel + 1 =>
    let tok := l.takeWhile isTokChar
    if tok = [] then []
    else
      let rest := l.drop tok.length
      let ws := rest.takeWhile isWsChar
      let rest2 := rest.drop ws.length
      if ws ≠ [] ∧ rest2.takeWhile isTokChar ≠ [] then
        (String.mk tok, String.mk ws) :: chainToks fuel rest2
      else [(String.mk tok, "")]

/-- Rebuild the exact matched text of a token group (tokens joined by their
original whitespace). -/
def groupJoin : List (String × String) → String
  | [] => ""
  | [(t, _)] => t
  | (t, sep) :: rest => t ++ sep ++ groupJoin rest

/-- Split a token chain at the last token equal to `to` (case-insensitive)
that has at least one token before it and one after — the split the greedy
first group of `/from\s+(...)\s+to\s+(...)/i` settles on. -/
def splitAtLastTo : List (String × String) → Option (List (String × String) × List (String × String))
  | [] => none
  | (t, sep) :: rest =>
    match splitAtLastTo rest with
    | some (g1, g2) => some ((t, sep) :: g1, g2)
    | none =>
      match rest with
      | (tk, _) :: g2 =>
        if lowerStr tk = "to" ∧ g2 ≠ [] then some ([(t, sep)], g2) else none
      | [] => none

/-- Match `/from\s+([^,\s]+(?:\s+[^,\s]+)*)\s+to\s+([^,\s]+(?:\s+[^,\s]+)*)/i`
at one start position. -/
def fromToAt (l : List Char) : Option (String × String) :=
  if startsWithCI l ['f', 'r', 'o', 'm'] then
    let rest := l.drop 4
    let ws := rest.takeWhile isWsChar
    if ws = [] then none
    else
      let rest2 := rest.drop ws.length
      match splitAtLastTo (chainToks (rest2.length + 1) rest2) with
      | some (g1, g2) => some (groupJoin g1, groupJoin g2)
      | none => none
  else none

/-- First match of the from/to pattern in the message (capture pair). -/
def findFromTo (s : String) : Option (String × String) :=
  scanSuffixes fromToAt s.toList

/-- Match `\s+([^,\.\!]+)` directly after a destination phrase: the greedy
whitespace run, then a maximal run of characters other than `,`, `.`, `!`;
when that run is empty the engine gives back one whitespace character to
serve as the capture. -/
def destCapture (rest : List Char) : Option String :=
  let ws := rest.takeWhile isWsChar
  if ws = [] then none
  else
    let after := rest.drop ws.length
    let cap := after.takeWhile fun c => ¬ (c = ',' ∨ c = '.' ∨ c = '!')
    if cap ≠ [] then some (String.mk cap)
    else if ws.length ≥ 2 then some (String.mk [ws.getLastD ' '])
    else none

/-- The four destination phrases of
`/(?:going to|visit|traveling to|trip to)\s+([^,\.\!]+)/i`. -/
def destPhrases : List (List Char) :=
  [['g', 'o', 'i', 'n', 'g', ' ', 't', 'o'],
   ['v', 'i', 's', 'i', 't'],
   ['t', 'r', 'a', 'v', 'e', 'l', 'i', 'n', 'g', ' ', 't', 'o'],
   ['t', 'r', 'i', 'p', ' ', 't', 'o']]

/-- Match the destination pattern at one start position (alternatives tried
in source order). -/
def destAt (l : List Char) : Option String :=
  destPhrases.firstM fun phrase =>
    if startsWithCI l phrase then destCapture (l.drop phrase.length) else none

/-- First match of the destination-only pattern in the message. -/
def findDestination (s : String) : Option String :=
  scanSuffixes destAt s.toList

/-- Match `/(\d+)\s+(?:people|travelers|adults|persons)/i` at one position. -/
def travelersAt (l : List Char) : Option String :=
  let ds := l.takeWhile Char.isDigit
  if ds = [] then none
  else
    let rest := l.drop ds.length
    let ws := rest.takeWhile isWsChar
    if ws = [] then none
    else
      let after := rest.drop ws.length
      let words : List (List Char) :=
        [['p', 'e', 'o', 'p', 'l', 'e'],
         ['t', 'r', 'a', 'v', 'e', 'l', 'e', 'r', 's'],
         ['a', 'd', 'u', 'l', 't', 's'],
         ['p', 'e', 'r', 's', 'o', 'n', 's']]
      if words.any fun w => startsWithCI after w then some (String.mk ds) else none

/-- First match of the traveler-count pattern. -/
def findTravelers (s : String) : Option String :=
  scanSuffixes travelersAt s.toList

/-- The `(?:,\d+)*` tail of the budget pattern: consume comma-digit groups
as long as they keep coming. -/
def budgetGroups (fuel : Nat) (l : List Char) : List Char × List Char :=
  match fuel with
  | 0 => ([], l)
  | fuel + 1 =>
    match l with
    | ',' :: rest =>
      let ds := rest.takeWhile Char.isDigit
      if ds = [] then ([], l)
      else
        let (more, rest2) := budgetGroups fuel (rest.drop ds.length)
        (',' :: ds ++ more, rest2)
    | _ => ([], l)

/-- Match `/\$(\d+(?:,\d+)*)/` at one position. -/
def budgetAt (l : List Char) : Option String :=
  match l with
  | '$' :: rest =>
    let ds := rest.takeWhile Char.isDigit
    if ds = [] then none
    else
      let (groups, _) := budgetGroups rest.length (rest.drop ds.length)
      some (String.mk (ds ++ groups))
  | _ => none

/-- First match of the budget pattern. -/
def findBudget (s : String) : Option String :=
  scanSuffixes budgetAt s.toList

/-- Match `/(\d+)\s+days?/i` at one position. -/
def durationAt (l : List Char) : Option String :=
  let ds := l.takeWhile Char.isDigit
  if ds = [] then none
  else
    let rest := l.drop ds.length
    let ws := rest.takeWhile isWsChar
    if ws = [] then none
    else if startsWithCI (rest.drop ws.length) ['d', 'a', 'y'] then some (String.mk ds)
    else none

/-- First match of the duration pattern. -/
def findDuration (s : String) : Option String :=
  scanSuffixes durationAt s.toList

/-- `extractBasicTravelInfo` (src/backend/itinerary.js, lines 671-722): the
regex-based heuristic fallback extractor.  Starts from a fully populated
sentinel record and overwrites fields whose pattern matches. -/
def extractBasicTravelInfo (message : String) : JsVal :=
  let basicInfo : JsVal := .obj
    [("fromLocation", .str "not specified"),
     ("toLocation", .str "not specified"),
     ("departureDate", .str "not specified"),
     ("returnDate", .str "not specified"),
     ("travelers", .num 1),
     ("budget", .str "not specified"),
     ("preferences", .arr []),
     ("duration", .str "not specified"),
     ("specialRequirements", .str "not specified")]
  let lowerMessage := lowerStr message
  let b1 :=
    match findFromTo message with
    | some (f, t) =>
      setField (setField basicInfo "fromLocation" (.str (trimJs f))) "toLocation" (.str (trimJs t))
    | none => basicInfo
  let b2 :=
    match findDestination message with
    | some d =>
      if jsIsStr (pureGet b1 "toLocation") "not specified" then
        setField b1 "toLocation" (.str (trimJs d))
      else b1
    | none => b1
  let b3 :=
    match findTravelers message with
    | some ds => setField b2 "travelers" (.num (digitsVal ds.toList))
    | none => b2
  let b4 :=
    match findBudget message with
    | some b => setField b3 "budget" (.str b)
    | none => b3
  let b5 :=
    match findDuration message with
    | some d => setField b4 "duration" (.str (d ++ " days"))
    | none => b4
  if jsIncludes lowerMessage "romantic" then
    setField b5 "specialRequirements" (.str "romantic trip")
  else if jsIncludes lowerMessage "family" ∨ jsIncludes lowerMessage "kids" then
    setField b5 "specialRequirements" (.str "family trip")
  else if jsIncludes lowerMessage "business" then
    setField b5 "specialRequirements" (.str "business trip")
  else b5

/-- Run a JS `try`-block result through its `catch` default. -/
def exceptD (e : Except String α) (d : α) : α :=
  match e with
  | .ok v => v
  | .error _ => d

/-- JS default function parameter: replaces `undefined` only. -/
def paramD (v d : JsVal) : JsVal := if isUndefined v then d else v

/-- `.slice(...).map(...)` machinery demands an actual array; anything else
throws a `TypeError`. -/
def arrE (v : JsVal) : Except String (List JsVal) :=
  match v with
  | .arr xs => .ok xs
  | _ => .error "TypeError: not an array"

/-- `v.toLowerCase()`: defined on strings, a `TypeError` elsewhere. -/
def lowerE (v : JsVal) : Except String String :=
  match v with
  | .str s => .ok (lowerStr s)
  | _ => .error "TypeError: toLowerCase is not a function"

/-- `v.includes(needle)` for string receivers; a `TypeError` elsewhere. -/
def includesE (v : JsVal) (needle : String) : Except String Bool :=
  match v with
  | .str s => .ok (jsIncludes s needle)
  | _ => .error "TypeError: includes is not a function"

/-- JS short-circuit `a || b` over boolean subexpressions that may throw:
`b` is not evaluated when `a` is true. -/
def orE (a : Except String Bool) (b : Unit → Except String Bool) : Except String Bool :=
  match a with
  | .error e => .error e
  | .ok true => .ok true
  | .ok false => b ()

/-- `Array.prototype.filter` with a predicate that may throw. -/
def filterE (p : JsVal → Except String Bool) : List JsVal → Except String (List JsVal)
  | [] => .ok []
  | x :: xs => do
    let keep ← p x
    let rest ← filterE p xs
    pure (if keep then x :: rest else rest)

/-- The `try` block of `searchPlacesTool.func` (src/backend/itinerary.js,
lines 87-118): key check, provider call, then the mapping of
`organic_results` into place entries. -/
def placesTry (location : JsVal) (apiKey : Option String) (http : Except String JsVal) :
    Except String JsVal := do
  if apiKey.isNone then throw "No API key available"
  let data ← http
  let organic ← jsGet data "organic_results"
  let xs ← arrE (jsOrV organic (.arr []))
  let places ← (xs.take 6).enum.mapM fun (i, r) => do
    let title ← jsGet r "title"
    let snippet ← jsGet r "snippet"
    let link ← jsGet r "link"
    let displayed ← jsGet r "displayed_link"
    pure (JsVal.obj
      [("name", title), ("description", snippet), ("website", link),
       ("source", displayed), ("rating", .str "Check reviews online"),
       ("address", .str "See website for details"), ("rank", .num (i + 1))])
  pure (.obj
    [("location", location),
     ("searchType", .str "Tourist Attractions & Places"),
     ("results", .arr places),
     ("totalFound", .num xs.length),
     ("dataSource", .str "SerpAPI Google Search")])

/-- The fallback payload of `searchPlacesTool.func` (its `catch` block). -/
def placesFallback (location : JsVal) : JsVal :=
  let loc := jsToString location
  .obj
    [("location", location),
     ("searchType", .str "Tourist Attractions & Places"),
     ("results", .arr
       [.obj
         [("name", .str ("Popular Attraction in " ++ loc)),
          ("description", .str ("A must-visit destination in " ++ loc ++ " featuring local culture and history")),
          ("website", .str "https://tripadvisor.com"),
          ("source", .str "Visit local tourism websites"),
          ("rating", .str "Check TripAdvisor for ratings"),
          ("address", .str ("Central " ++ loc)),
          ("rank", .num 1)],
        .obj
         [("name", .str (loc ++ " Historic Center")),
          ("description", .str "Historic district with traditional architecture and local attractions"),
          ("website", .str "https://google.com/maps"),
          ("source", .str "Use Google Maps for navigation"),
          ("rating", .str "Highly rated on travel sites"),
          ("address", .str ("Downtown " ++ loc)),
          ("rank", .num 2)]]),
     ("totalFound", .num 2),
     ("dataSource", .str "Fallback recommendations"),
     ("note", .str "API temporarily unavailable - showing popular recommendations")]

/-- `searchPlacesTool.func`: returns the stringified success payload, or the
stringified fallback payload when anything in the `try` block throws. -/
def searchPlacesFunc (query location : JsVal) (apiKey : Option String)
    (http : Except String JsVal) : String :=
  match placesTry location apiKey http with
  | .ok v => stringifyJs v
  | .error _ =>
    let _ := query
    stringifyJs (placesFallback location)

/-- The hotel-relevance predicate of `searchHotelsTool.func` (a chain of
short-circuit `||` tests that can throw on malformed entries). -/
def hotelFilterPred (r : JsVal) : Except String Bool := do
  let title ← jsGet r "title"
  orE (do pure (jsIncludes (← lowerE title) "hotel")) fun _ => do
    let snippet ← jsGet r "snippet"
    orE (do pure (jsIncludes (← lowerE snippet) "hotel")) fun _ => do
      let link ← jsGet r "link"
      orE (includesE link "booking.com") fun _ =>
        orE (includesE link "hotels.com") fun _ =>
          includesE link "expedia.com"

/-- The `try` block of `searchHotelsTool.func` (lines 174-217). -/
def hotelsTry (location checkIn checkOut adults : JsVal) (apiKey : Option String)
    (http : Except String JsVal) : Except String JsVal := do
  if apiKey.isNone then throw "No API key available"
  let data ← http
  let organic ← jsGet data "organic_results"
  let xs ← arrE (jsOrV organic (.arr []))
  let kept ← filterE hotelFilterPred xs
  let hotels ← (kept.take 5).mapM fun r => do
    let title ← jsGet r "title"
    let snippet ← jsGet r "snippet"
    let link ← jsGet r "link"
    let displayed ← jsGet r "displayed_link"
    pure (JsVal.obj
      [("name", title), ("description", snippet), ("bookingLink", link),
       ("source", displayed),
       ("rating", .str "Check booking site for ratings"),
       ("priceRange", .str "See booking sites for current prices"),
       ("amenities", .str "View details on booking platform")])
  pure (.obj
    [("location", location),
     ("checkIn", jsOrV checkIn (.str "Flexible dates")),
     ("checkOut", jsOrV checkOut (.str "Flexible dates")),
     ("adults", adults),
     ("hotels", .arr hotels),
     ("bookingSites", .arr [.str "Booking.com", .str "Hotels.com", .str "Expedia.com"]),
     ("recommendation", .str "Compare prices across multiple booking platforms"),
     ("dataSource", .str "SerpAPI Google Search")])

/-- The fallback payload of `searchHotelsTool.func`. -/
def hotelsFallback (location checkIn checkOut adults : JsVal) : JsVal :=
  let loc := jsToString location
  .obj
    [("location", location),
     ("checkIn", jsOrV checkIn (.str "Flexible dates")),
     ("checkOut", jsOrV checkOut (.str "Flexible dates")),
     ("adults", adults),
     ("hotels", .arr
       [.obj
         [("name", .str (loc ++ " Central Hotel")),
          ("description", .str ("Well-located hotel in central " ++ loc ++ " with modern amenities")),
          ("bookingLink", .str "https://booking.com"),
          ("source", .str "booking.com"),
          ("rating", .str "Check Booking.com for current ratings"),
          ("priceRange", .str "Mid-range to luxury options available"),
          ("amenities", .str "Standard hotel amenities expected")],
        .obj
         [("name", .str (loc ++ " Business Hotel")),
          ("description", .str ("Business-friendly accommodation near " ++ loc ++ " city center")),
          ("bookingLink", .str "https://hotels.com"),
          ("source", .str "hotels.com"),
          ("rating", .str "See Hotels.com for reviews"),
          ("priceRange", .str "Competitive business rates"),
          ("amenities", .str "Business center, wifi, fitness")]]),
     ("bookingSites", .arr [.str "Booking.com", .str "Hotels.com", .str "Expedia.com"]),
     ("recommendation", .str "Check major booking sites for availability and rates"),
     ("dataSource", .str "Fallback recommendations"),
     ("note", .str "API temporarily unavailable - showing general recommendations")]

/-- `searchHotelsTool.func` (destructuring default: `adults = 2`). -/
def searchHotelsFunc (location checkIn checkOut adults : JsVal) (apiKey : Option String)
    (http : Except String JsVal) : String :=
  let adults := paramD adults (.num 2)
  match hotelsTry location checkIn checkOut adults apiKey http with
  | .ok v => stringifyJs v
  | .error _ => stringifyJs (hotelsFallback location checkIn checkOut adults)

/-- The restaurant-relevance predicate of `searchRestaurantsTool.func`. -/
def restaurantFilterPred (r : JsVal) : Except String Bool := do
  let title ← jsGet r "title"
  orE (do pure (jsIncludes (← lowerE title) "restaurant")) fun _ => do
    let snippet ← jsGet r "snippet"
    orE (do pure (jsIncludes (← lowerE snippet) "restaurant")) fun _ =>
      orE (do pure (jsIncludes (← lowerE snippet) "dining")) fun _ => do
        let link ← jsGet r "link"
        orE (includesE link "tripadvisor") fun _ =>
          orE (includesE link "yelp") fun _ =>
            includesE link "opentable"

/-- The `try` block of `searchRestaurantsTool.func` (lines 277-320). -/
def restaurantsTry (location cuisine priceRange : JsVal) (apiKey : Option String)
    (http : Except String JsVal) : Except String JsVal := do
  if apiKey.isNone then throw "No API key available"
  let data ← http
  let organic ← jsGet data "organic_results"
  let xs ← arrE (jsOrV organic (.arr []))
  let kept ← filterE restaurantFilterPred xs
  let restaurants ← (kept.take 6).mapM fun r => do
    let title ← jsGet r "title"
    let snippet ← jsGet r "snippet"
    let link ← jsGet r "link"
    let displayed ← jsGet r "displayed_link"
    pure (JsVal.obj
      [("name", title), ("description", snippet), ("website", link),
       ("source", displayed),
       ("cuisine", jsOrV cuisine (.str "Various")),
       ("rating", .str "Check TripAdvisor or Yelp for ratings"),
       ("priceLevel", jsOrV priceRange (.str "Various price ranges"))])
  pure (.obj
    [("location", location),
     ("cuisine", jsOrV cuisine (.str "All cuisines")),
     ("priceRange", jsOrV priceRange (.str "All price ranges")),
     ("restaurants", .arr restaurants),
     ("reviewSites", .arr [.str "TripAdvisor", .str "Yelp", .str "Google Reviews"]),
     ("recommendation", .str "Check reviews and make reservations through OpenTable"),
     ("dataSource", .str "SerpAPI Google Search")])

/-- The fallback payload of `searchRestaurantsTool.func`. -/
def restaurantsFallback (location cuisine priceRange : JsVal) : JsVal :=
  let loc := jsToString location
  .obj
    [("location", location),
     ("cuisine", jsOrV cuisine (.str "All cuisines")),
     ("priceRange", jsOrV priceRange (.str "All price ranges")),
     ("restaurants", .arr
       [.obj
         [("name", .str (loc ++ " Local Cuisine Restaurant")),
          ("description", .str ("Authentic local dining experience featuring traditional " ++ loc ++ " cuisine")),
          ("website", .str "https://tripadvisor.com"),
          ("source", .str "tripadvisor.com"),
          ("cuisine", jsOrV cuisine (.str "Local")),
          ("rating", .str "Check TripAdvisor for reviews"),
          ("priceLevel", jsOrV priceRange (.str "Mid-range"))],
        .obj
         [("name", .str ("Popular " ++ jsToString (jsOrV cuisine (.str "International")) ++ " Restaurant in " ++ loc)),
          ("description", .str ("Well-reviewed " ++ jsToString (jsOrV cuisine (.str "international")) ++ " restaurant popular with locals and tourists")),
          ("website", .str "https://yelp.com"),
          ("source", .str "yelp.com"),
          ("cuisine", jsOrV cuisine (.str "International")),
          ("rating", .str "See Yelp for ratings and reviews"),
          ("priceLevel", jsOrV priceRange (.str "Mid-range"))]]),
     ("reviewSites", .arr [.str "TripAdvisor", .str "Yelp", .str "Google Reviews"]),
     ("recommendation", .str "Search TripAdvisor, Yelp, or Google for local restaurant reviews"),
     ("dataSource", .str "Fallback recommendations"),
     ("note", .str "API temporarily unavailable - showing general recommendations")]

/-- `searchRestaurantsTool.func` (destructuring defaults:
`cuisine = ''`, `priceRange = ''`). -/
def searchRestaurantsFunc (location cuisine priceRange : JsVal) (apiKey : Option String)
    (http : Except String JsVal) : String :=
  let cuisine := paramD cuisine (.str "")
  let priceRange := paramD priceRange (.str "")
  match restaurantsTry location cuisine priceRange apiKey http with
  | .ok v => stringifyJs v
  | .error _ => stringifyJs (restaurantsFallback location cuisine priceRange)

/-- The flight-source relevance predicate of `searchFlightsTool.func`. -/
def flightFilterPred (r : JsVal) : Except String Bool := do
  let link ← jsGet r "link"
  orE (includesE link "kayak") fun _ =>
    orE (includesE link "expedia") fun _ =>
      orE (includesE link "skyscanner") fun _ =>
        orE (includesE link "momondo") fun _ =>
          orE (includesE link "google.com/flights") fun _ => do
            let snippet ← jsGet r "snippet"
            pure (jsIncludes (← lowerE snippet) "flight")

/-- The `try` block of `searchFlightsTool.func` (lines 379-421). -/
def flightsTry (fromLocation toLocation departureDate returnDate adults : JsVal)
    (apiKey : Option String) (http : Except String JsVal) : Except String JsVal := do
  if apiKey.isNone then throw "No API key available"
  let data ← http
  let organic ← jsGet data "organic_results"
  let xs ← arrE (jsOrV organic (.arr []))
  let kept ← filterE flightFilterPred xs
  let flightSources ← (kept.take 4).mapM fun r => do
    let displayed ← jsGet r "displayed_link"
    let title ← jsGet r "title"
    let snippet ← jsGet r "snippet"
    let link ← jsGet r "link"
    pure (JsVal.obj
      [("site", displayed), ("title", title), ("description", snippet), ("link", link)])
  pure (.obj
    [("route", .str (jsToString fromLocation ++ " → " ++ jsToString toLocation)),
     ("departureDate", departureDate),
     ("returnDate", jsOrV returnDate (.str "One way")),
     ("passengers", adults),
     ("bookingSources", .arr flightSources),
     ("majorSites", .arr [.str "Google Flights", .str "Kayak", .str "Expedia", .str "Skyscanner"]),
     ("recommendation", .str "Compare prices across multiple booking platforms"),
     ("tips", .str "Book 6-8 weeks in advance for best domestic prices, 2-3 months for international"),
     ("dataSource", .str "SerpAPI Google Search")])

/-- The fallback payload of `searchFlightsTool.func` (its booking-source
list is empty). -/
def flightsFallback (fromLocation toLocation departureDate returnDate adults : JsVal) : JsVal :=
  .obj
    [("route", .str (jsToString fromLocation ++ " → " ++ jsToString toLocation)),
     ("departureDate", departureDate),
     ("returnDate", jsOrV returnDate (.str "One way")),
     ("passengers", adults),
     ("bookingSources", .arr []),
     ("majorSites", .arr [.str "Google Flights", .str "Kayak", .str "Expedia", .str "Skyscanner"]),
     ("recommendation", .str "Visit Google Flights, Kayak, or Expedia to search for flights"),
     ("tips", .str "Compare prices across multiple sites and consider flexible dates"),
     ("dataSource", .str "Fallback recommendations"),
     ("note", .str "API temporarily unavailable - use major booking sites directly")]

/-- `searchFlightsTool.func` (destructuring default: `adults = 1`). -/
def searchFlightsFunc (fromLocation toLocation departureDate returnDate adults : JsVal)
    (apiKey : Option String) (http : Except String JsVal) : String :=
  let adults := paramD adults (.num 1)
  match flightsTry fromLocation toLocation departureDate returnDate adults apiKey http with
  | .ok v => stringifyJs v
  | .error _ => stringifyJs (flightsFallback fromLocation toLocation departureDate returnDate adults)

/-- The weather-source relevance predicate of `searchWeatherTool.func`. -/
def weatherFilterPred (r : JsVal) : Except String Bool := do
  let link ← jsGet r "link"
  orE (includesE link "weather.com") fun _ =>
    orE (includesE link "accuweather.com") fun _ => do
      let snippet ← jsGet r "snippet"
      pure (jsIncludes (← lowerE snippet) "weather")

/-- The `try` block of `searchWeatherTool.func` (lines 466-503). -/
def weatherTry (location date : JsVal) (apiKey : Option String)
    (http : Except String JsVal) : Except String JsVal := do
  if apiKey.isNone then throw "No API key available"
  let data ← http
  let answerBoxRaw ← jsGet data "answer_box"
  let answerBox := jsOrV answerBoxRaw (.obj [])
  let organic ← jsGet data "organic_results"
  let xs ← arrE (jsOrV organic (.arr []))
  let kept ← filterE weatherFilterPred xs
  let weatherSources := kept.take 2
  let sources ← weatherSources.mapM fun r => do
    let title ← jsGet r "title"
    let link ← jsGet r "link"
    let snippet ← jsGet r "snippet"
    pure (JsVal.obj [("title", title), ("link", link), ("snippet", snippet)])
  let temperature ← jsGet answerBox "temperature"
  let weather ← jsGet answerBox "weather"
  let description ← jsGet answerBox "description"
  let forecast ← jsGet answerBox "forecast"
  pure (.obj
    [("location", location),
     ("date", jsOrV date (.str "Current")),
     ("temperature", jsOrV temperature (.str "Check weather services")),
     ("condition", jsOrV weather (jsOrV description (.str "See weather sources"))),
     ("forecast", jsOrV forecast (.str "Check weather.com for detailed forecast")),
     ("sources", .arr sources),
     ("recommendation", .str ("Check Weather.com or AccuWeather for detailed " ++ jsToString location ++ " forecast")),
     ("dataSource", .str "SerpAPI Google Search")])

/-- The fallback payload of `searchWeatherTool.func`. -/
def weatherFallback (location date : JsVal) : JsVal :=
  .obj
    [("location", location),
     ("date", jsOrV date (.str "Current")),
     ("temperature", .str "Check weather.com"),
     ("condition", .str "Variable conditions expected"),
     ("forecast", .str "See weather services for current forecast"),
     ("sources", .arr []),
     ("recommendation", .str ("Visit Weather.com or AccuWeather for " ++ jsToString location ++ " weather details")),
     ("dataSource", .str "Fallback recommendations"),
     ("note", .str "API temporarily unavailable - check weather sites directly")]

/-- `searchWeatherTool.func`. -/
def searchWeatherFunc (location date : JsVal) (apiKey : Option String)
    (http : Except String JsVal) : String :=
  match weatherTry location date apiKey http with
  | .ok v => stringifyJs v
  | .error _ => stringifyJs (weatherFallback location date)

/-- A `{role, content}` conversation message. -/
structure ChatMsg where
  role : String
  content : String
deriving DecidableEq

/-- The orchestration state (`AgentState` in the source): messages,
extracted travel details, gathered tool results, current step name, final
response text. -/
structure AgentState where
  messages : List ChatMsg
  travelDetails : JsVal
  toolResults : JsVal
  currentStep : String
  finalResponse : String

/-- A partial update returned by a stage function; `none` marks channels
the stage did not write. -/
structure StateUpdate where
  messages : Option (List ChatMsg) := none
  travelDetails : Option JsVal := none
  toolResults : Option JsVal := none
  currentStep : Option String := none
  finalResponse : Option String := none

/-- The per-channel reducers of the state graph: concatenation for
`messages`, object-spread merge for `travelDetails` and `toolResults`,
last-write-wins for `currentStep` and `finalResponse`. -/
def applyUpdate (s : AgentState) (u : StateUpdate) : AgentState :=
  { messages := s.messages ++ u.messages.getD []
    travelDetails :=
      match u.travelDetails with
      | some y => objMerge s.travelDetails y
      | none => s.travelDetails
    toolResults :=
      match u.toolResults with
      | some y => objMerge s.toolResults y
      | none => s.toolResults
    currentStep := u.currentStep.getD s.currentStep
    finalResponse := u.finalResponse.getD s.finalResponse }

/-- The environment of external behaviours for one turn: the outcome of the
two model calls, and — for each capability — the combined outcome of the
adapter invocation and the `JSON.parse` of its string result, as a function
of the exact arguments the coordinator passes.  Instantiating a capability
with `.error` models a forced adapter failure; instantiating it with the
embedded adapter composed with `jsonParse` recovers the concrete system. -/
structure Env where
  extract : Except String String
  synth : Except String String
  weather : JsVal → JsVal → Except String JsVal
  flights : JsVal → JsVal → JsVal → JsVal → JsVal → Except String JsVal
  hotels : JsVal → JsVal → JsVal → JsVal → Except String JsVal
  attractions : String → JsVal → Except String JsVal
  restaurants : JsVal → String → String → Except String JsVal

/-- First index of a character in a list. -/
def idxOfChar (l : List Char) (c : Char) : Option Nat :=
  l.findIdx? (fun d => d = c)

/-- The brace-slicing step of `analyzeUserRequest`: trim, then cut from the
first `\x7b` to the last `\x7d` when both exist in that order. -/
def cleanModelJson (content : String) : String :=
  let cleaned := trimJs content
  let l := cleaned.toList
  match idxOfChar l '\x7b', idxOfChar l.reverse '\x7d' with
  | some f, some rl =>
    let lastB := l.length - 1 - rl
    if lastB > f then String.mk ((l.drop f).take (lastB + 1 - f)) else cleaned
  | _, _ => cleaned

/-- The `try` block of `analyzeUserRequest` (lines 636-657): model call,
brace slice, `JSON.parse`, then the partial update moving to
`gathering_data`. -/
def analyzeTry (env : Env) : Except String StateUpdate :=
  match env.extract with
  | .error e => .error e
  | .ok content =>
    match jsonParse (cleanModelJson content) with
    | none => .error "SyntaxError: Unexpected token in JSON"
    | some td => .ok { travelDetails := some td, currentStep := some "gathering_data" }

/-- `analyzeUserRequest` (lines 602-669).  Its `catch` block logs
`result?.content`, but `result` is a `const` scoped to the `try` block, so
the handler itself throws a `ReferenceError` before it can reach the
heuristic fallback — the error replaces the recovery. -/
def analyzeUserRequest (env : Env) (st : AgentState) : Except String StateUpdate :=
  match st.messages.getLast? with
  | none => .error "TypeError: Cannot read properties of undefined"
  | some _ =>
    match analyzeTry env with
    | .ok u => .ok u
    | .error _ => .error "ReferenceError: result is not defined"

/-- `v === "not specified"`. -/
def isNotSpecified (v : JsVal) : Bool := jsIsStr v "not specified"

/-- The gating condition shared by weather, hotels, attractions and
restaurants: `travelDetails.toLocation && toLocation !== "not specified"`. -/
def toLocationCond (tl : JsVal) : Bool := truthy tl && ¬ isNotSpecified tl

/-- The weather invocation of `gatherTravelData` (argument construction
plus adapter call, as wrapped by its inner `try`). -/
def weatherAttempt (env : Env) (td : JsVal) : Except String JsVal := do
  let tl ← jsGet td "toLocation"
  let dd ← jsGet td "departureDate"
  env.weather tl (if isNotSpecified dd then .undefined else dd)

/-- The flights invocation of `gatherTravelData`. -/
def flightsAttempt (env : Env) (td : JsVal) : Except String JsVal := do
  let fl ← jsGet td "fromLocation"
  let tl ← jsGet td "toLocation"
  let dd ← jsGet td "departureDate"
  let rd ← jsGet td "returnDate"
  let tv ← jsGet td "travelers"
  env.flights fl tl dd (if isNotSpecified rd then .undefined else rd) (jsOrV tv (.num 1))

/-- The hotels invocation of `gatherTravelData`. -/
def hotelsAttempt (env : Env) (td : JsVal) : Except String JsVal := do
  let tl ← jsGet td "toLocation"
  let dd ← jsGet td "departureDate"
  let rd ← jsGet td "returnDate"
  let tv ← jsGet td "travelers"
  env.hotels tl (if isNotSpecified dd then .undefined else dd)
    (if isNotSpecified rd then .undefined else rd) (jsOrV tv (.num 2))

/-- The attractions invocation of `gatherTravelData`. -/
def attractionsAttempt (env : Env) (td : JsVal) : Except String JsVal := do
  let tl ← jsGet td "toLocation"
  env.attractions "tourist attractions museums landmarks" tl

/-- The budget-to-price-tier computation of `gatherTravelData` (lines
803-818): a parsed amount above 2000 maps to `luxury`, a parsed amount at
most 2000 to `mid-range`; a missing, falsy, sentinel, or unparsable budget
leaves the tier as the empty string (the `catch` that would default it to
`mid-range` is unreachable, since `String(...).replace` and `parseInt`
do not throw). -/
def restaurantPriceRange (budget : JsVal) : String :=
  if truthy budget && ¬ isNotSpecified budget then
    match parseIntJs (stripCommaDollar (jsToString budget)) with
    | some n => if n > 2000 then "luxury" else "mid-range"
    | none => ""
  else ""

/-- `travelDetails.preferences?.includes('food') ? 'local' : ''`. -/
def cuisineOf (prefs : JsVal) : Except String String :=
  match prefs with
  | .undefined => .ok ""
  | .null => .ok ""
  | .arr xs => .ok (if xs.any (fun x => jsIsStr x "food") then "local" else "")
  | .str s => .ok (if jsIncludes s "food" then "local" else "")
  | _ => .error "TypeError: includes is not a function"

/-- The restaurants invocation of `gatherTravelData` (given the computed
price tier). -/
def restaurantsAttempt (env : Env) (td : JsVal) (priceRange : String) :
    Except String JsVal := do
  let tl ← jsGet td "toLocation"
  let prefs ← jsGet td "preferences"
  let cu ← cuisineOf prefs
  env.restaurants tl cu priceRange

/-- The error marker a failed capability attempt leaves under its key. -/
def capErrorMarker (msg : String) : JsVal := .obj [("error", .str msg)]

/-- The body of `gatherTravelData`'s outer `try` (lines 731-838): each
capability gated by its precondition and wrapped in its own inner
`try`/`catch`, which turns a failure into an error marker under just that
capability's key. -/
def gatherBody (env : Env) (td : JsVal) : Except String StateUpdate := do
  let tl ← jsGet td "toLocation"
  let tr1 : List (String × JsVal) :=
    if toLocationCond tl then
      [("weather", exceptD (weatherAttempt env td) (capErrorMarker "Weather data unavailable"))]
    else []
  let fl ← jsGet td "fromLocation"
  let tlF ← jsGet td "toLocation"
  let dd ← jsGet td "departureDate"
  let tr2 :=
    if ¬ isNotSpecified fl && ¬ isNotSpecified tlF && ¬ isNotSpecified dd then
      tr1 ++ [("flights", exceptD (flightsAttempt env td) (capErrorMarker "Flight data unavailable"))]
    else tr1
  let tlH ← jsGet td "toLocation"
  let tr3 :=
    if toLocationCond tlH then
      tr2 ++ [("hotels", exceptD (hotelsAttempt env td) (capErrorMarker "Hotel data unavailable"))]
    else tr2
  let tlA ← jsGet td "toLocation"
  let tr4 :=
    if toLocationCond tlA then
      tr3 ++ [("attractions", exceptD (attractionsAttempt env td) (capErrorMarker "Attractions data unavailable"))]
    else tr3
  let tlR ← jsGet td "toLocation"
  let tr5 ←
    if toLocationCond tlR then do
      let b ← jsGet td "budget"
      let pr := restaurantPriceRange b
      pure (tr4 ++ [("restaurants", exceptD (restaurantsAttempt env td pr) (capErrorMarker "Restaurant data unavailable"))])
    else pure tr4
  pure { toolResults := some (.obj tr5), currentStep := some "creating_itinerary" }

/-- The update produced by `gatherTravelData`'s outer `catch` (lines
839-845): a top-level error in `toolResults` and the pipeline still
advances to synthesis. -/
def gatherCatchUpdate (details : String) : StateUpdate :=
  { toolResults := some (.obj
      [("error", .str "Failed to gather travel data"), ("details", .str details)])
    currentStep := some "creating_itinerary" }

/-- `gatherTravelData` (lines 724-846): never raises — a wholesale failure
of the body lands in the outer `catch`. -/
def gatherTravelData (env : Env) (st : AgentState) : StateUpdate :=
  match gatherBody env st.travelDetails with
  | .ok u => u
  | .error e => gatherCatchUpdate e

/-- The deterministic fallback markdown of `createItinerary`'s `catch`
(lines 907-932), given the four interpolated travel-detail fields. -/
def fallbackResponseText (tl fl dd tv : JsVal) : String :=
  "# Travel Planning Assistant\n\n" ++
  "I encountered an issue creating your detailed itinerary, but I can still help you plan your trip!\n\n" ++
  "## Based on your request:\n" ++
  (if ¬ isNotSpecified tl then "**Destination:** " ++ jsToString tl else "") ++ "\n" ++
  (if ¬ isNotSpecified fl then "**From:** " ++ jsToString fl else "") ++ "\n" ++
  (if ¬ isNotSpecified dd then "**Departure:** " ++ jsToString dd else "") ++ "\n" ++
  (if jsGtNum tv 1 then "**Travelers:** " ++ jsToString tv ++ " people" else "") ++ "\n\n" ++
  "## General Recommendations:\n\n" ++
  "### Booking Resources:\n" ++
  "- **Flights:** Google Flights, Kayak, Expedia\n" ++
  "- **Hotels:** Booking.com, Hotels.com, Airbnb\n" ++
  "- **Restaurants:** TripAdvisor, Yelp, OpenTable\n" ++
  "- **Attractions:** TripAdvisor, Viator, GetYourGuide\n\n" ++
  "### Planning Tips:\n" ++
  "1. Book flights 6-8 weeks in advance for domestic, 2-3 months for international\n" ++
  "2. Compare hotel prices across multiple booking sites\n" ++
  "3. Check weather forecasts closer to your travel date\n" ++
  "4. Research local transportation options\n" ++
  "5. Make restaurant reservations in advance for popular places\n\n" ++
  "Please try asking again with your specific travel details, and I\x27ll do my best to create a detailed itinerary for you!"

/-- Builds the fallback response from `travelDetails` (the template
interpolations read four of its properties and can throw on a `null` or
`undefined` record). -/
def buildFallbackResponse (td : JsVal) : Except String String := do
  let tl ← jsGet td "toLocation"
  let fl ← jsGet td "fromLocation"
  let dd ← jsGet td "departureDate"
  let tv ← jsGet td "travelers"
  pure (fallbackResponseText tl fl dd tv)

/-- `createItinerary` (lines 848-939): the synthesis prompt interpolates
the five capability slots of `toolResults` before the `try`; on model
success the raw completion becomes `finalResponse`, on model failure the
`catch` assembles the deterministic template; either way the step advances
to `complete`. -/
def createItinerary (env : Env) (st : AgentState) : Except String StateUpdate :=
  match st.messages.getLast? with
  | none => .error "TypeError: Cannot read properties of undefined"
  | some _ => do
    let _ ← jsGet st.toolResults "weather"
    let _ ← jsGet st.toolResults "flights"
    let _ ← jsGet st.toolResults "hotels"
    let _ ← jsGet st.toolResults "attractions"
    let _ ← jsGet st.toolResults "restaurants"
    match env.synth with
    | .ok content => pure { finalResponse := some content, currentStep := some "complete" }
    | .error _ => do
      let s ← buildFallbackResponse st.travelDetails
      pure { finalResponse := some s, currentStep := some "complete" }

/-- The compiled workflow `analyze → gather_data → create_itinerary`
applied by sequential reduction, also recording every `currentStep` value
the run passes through (initial state included). -/
def runAgent (env : Env) (init : AgentState) : Except String (List String × AgentState) := do
  let u1 ← analyzeUserRequest env init
  let s1 := applyUpdate init u1
  let u2 := gatherTravelData env s1
  let s2 := applyUpdate s1 u2
  let u3 ← createItinerary env s2
  let s3 := applyUpdate s2 u3
  pure ([init.currentStep, s1.currentStep, s2.currentStep, s3.currentStep], s3)

/-- Generic association-list lookup (the process-wide `Map`s). -/
def alistLookup : List (String × α) → String → Option α
  | [], _ => none
  | (k, v) :: ps, key => if key = k then some v else alistLookup ps key

/-- `Map.set`: replace an existing binding in place or append a new one. -/
def alistSet : List (String × α) → String → α → List (String × α)
  | [], key, v => [(key, v)]
  | (k, w) :: ps, key, v =>
    if key = k then (k, v) :: ps else (k, w) :: alistSet ps key v

/-- The two process-wide maps of the Express server: `conversations` and
`agentStates`, both keyed by conversation id. -/
structure ServerState where
  conversations : List (String × List ChatMsg)
  agentStates : List (String × AgentState)

/-- The initial `AgentState` the chat handler builds for a turn. -/
def initialAgentState (message : String) : AgentState :=
  { messages := [⟨"user", message⟩]
    travelDetails := .obj []
    toolResults := .obj []
    currentStep := "analyzing"
    finalResponse := "" }

/-- `app.post('/api/chat')` (lines 980-1041): rejects an empty message,
stores the initial agent state under the conversation id, runs the agent,
then appends to and trims the conversation history.  The final agent state
is never written back to `agentStates`.  A rejected run reaches the route
`catch` (HTTP 500); the history array, when it already existed in the map,
has still been mutated by the user-message push. -/
def handleChat (env : Env) (srv : ServerState) (message conversationId : String) :
    ServerState × Except String String :=
  if message = "" then (srv, .error "Message is required")
  else
    let existing := alistLookup srv.conversations conversationId
    let conv1 := existing.getD [] ++ [⟨"user", message⟩]
    let srv1 := { srv with agentStates := alistSet srv.agentStates conversationId (initialAgentState message) }
    match runAgent env (initialAgentState message) with
    | .error _ =>
      let srv2 :=
        if existing.isSome then
          { srv1 with conversations := alistSet srv1.conversations conversationId conv1 }
        else srv1
      (srv2, .error "Sorry, I encountered an error while planning your trip. Please try again!")
    | .ok (_, fin) =>
      let conv2 := conv1 ++ [⟨"assistant", fin.finalResponse⟩]
      let conv3 := if conv2.length > 40 then conv2.drop (conv2.length - 40) else conv2
      ({ srv1 with conversations := alistSet srv1.conversations conversationId conv3 },
       .ok fin.finalResponse)

/-- `app.get('/api/agent-state/:conversationId')` (lines 1043-1052): a 404
for an unknown id, otherwise the stored state as-is. -/
def getAgentStateRoute (srv : ServerState) (conversationId : String) :
    Except String AgentState :=
  match alistLookup srv.agentStates conversationId with
  | none => .error "Agent state not found"
  | some st => .ok st

/-- The five data-gathering capabilities. -/
inductive Capability where
  | weather | flights | hotels | attractions | restaurants
deriving DecidableEq

/-- The `ToolResults` key of each capability. -/
def capKey : Capability → String
  | .weather => "weather"
  | .flights => "flights"
  | .hotels => "hotels"
  | .attractions => "attractions"
  | .restaurants => "restaurants"

/-- The error-marker text each capability's inner `catch` records. -/
def capErrText : Capability → String
  | .weather => "Weather data unavailable"
  | .flights => "Flight data unavailable"
  | .hotels => "Hotel data unavailable"
  | .attractions => "Attractions data unavailable"
  | .restaurants => "Restaurant data unavailable"

/-- The gating precondition of each capability as the source tests it:
flights compare the three fields against the sentinel only; the other four
also require a truthy `toLocation`. -/
def capApplicable (td : JsVal) : Capability → Bool
  | .flights =>
    ¬ isNotSpecified (pureGet td "fromLocation") &&
      ¬ isNotSpecified (pureGet td "toLocation") &&
        ¬ isNotSpecified (pureGet td "departureDate")
  | _ => toLocationCond (pureGet td "toLocation")

/-- The computation each capability's inner `try` wraps. -/
def capAttempt (env : Env) (td : JsVal) : Capability → Except String JsVal
  | .weather => weatherAttempt env td
  | .flights => flightsAttempt env td
  | .hotels => hotelsAttempt env td
  | .attractions => attractionsAttempt env td
  | .restaurants => do
    let b ← jsGet td "budget"
    restaurantsAttempt env td (restaurantPriceRange b)

/-- Look a capability key up in the `toolResults` slot of a stage update. -/
def toolResultLookup (u : StateUpdate) (key : String) : Option JsVal :=
  match u.toolResults with
  | some (.obj ps) => olookup ps key
  | _ => none

/-- Per-key characterization of `gatherTravelData` on an accessible
`travelDetails`: a capability's key is present exactly when its
precondition holds, and then carries its own attempt's value or its own
error marker — independent of every other capability's outcome. -/
theorem gather_char (env : Env) (st : AgentState)
    (h : jsAccessible st.travelDetails = true) (c : Capability) :
    toolResultLookup (gatherTravelData env st) (capKey c) =
      if capApplicable st.travelDetails c then
        some (exceptD (capAttempt env st.travelDetails c) (capErrorMarker (capErrText c)))
      else none := by
  cases htd : st.travelDetails with
  | undefined => rw [htd] at h; exact absurd h (by decide)
  | null => rw [htd] at h; exact absurd h (by decide)
  | bool b =>
    cases c <;>
      simp only [gatherTravelData, gatherBody, jsGet, htd, capApplicable, capAttempt, capKey,
        capErrText, toolResultLookup, Except.bind, bind] <;>
      split_ifs <;> rfl
  | num n =>
    cases c <;>
      simp only [gatherTravelData, gatherBody, jsGet, htd, capApplicable, capAttempt, capKey,
        capErrText, toolResultLookup, Except.bind, bind] <;>
      split_ifs <;> rfl
  | str s =>
    cases c <;>
      simp only [gatherTravelData, gatherBody, jsGet, htd, capApplicable, capAttempt, capKey,
        capErrText, toolResultLookup, Except.bind, bind] <;>
      split_ifs <;> rfl
  | arr xs =>
    cases c <;>
      simp only [gatherTravelData, gatherBody, jsGet, htd, capApplicable, capAttempt, capKey,
        capErrText, toolResultLookup, Except.bind, bind] <;>
      split_ifs <;> rfl
  | obj ps =>
    cases c <;>
      simp only [gatherTravelData, gatherBody, jsGet, htd, capApplicable, capAttempt, capKey,
        capErrText, toolResultLookup, Except.bind, bind] <;>
      split_ifs <;> rfl

/-- A successful gather body always produces an object of per-capability
pairs and the `creating_itinerary` step. -/
theorem gatherBody_ok_shape (env : Env) (td : JsVal) (u : StateUpdate)
    (hb : gatherBody env td = .ok u) :
    ∃ pairs, u = { toolResults := some (.obj pairs), currentStep := some "creating_itinerary" } := by
  cases td <;>
    simp only [gatherBody, jsGet, Except.bind, bind] at hb <;>
    first
      | exact Except.noConfusion hb
      | (split_ifs at hb <;> exact ⟨_, (Except.ok.inj hb).symm⟩)

/-- `gatherTravelData` never raises and always advances the step to
`creating_itinerary`, through the normal path and the outer `catch` alike. -/
theorem gather_step_always (env : Env) (st : AgentState) :
    (gatherTravelData env st).currentStep = some "creating_itinerary" := by
  unfold gatherTravelData
  cases hb : gatherBody env st.travelDetails with
  | error e => rfl
  | ok u =>
    obtain ⟨pairs, rfl⟩ := gatherBody_ok_shape env st.travelDetails u hb
    rfl

/-- `gatherTravelData` always returns an update touching only
`toolResults` (an object) and `currentStep`. -/
theorem gather_shape (env : Env) (st : AgentState) :
    ∃ pairs, gatherTravelData env st =
      { toolResults := some (.obj pairs), currentStep := some "creating_itinerary" } := by
  unfold gatherTravelData
  cases hb : gatherBody env st.travelDetails with
  | error e => exact ⟨_, rfl⟩
  | ok u =>
    obtain ⟨pairs, rfl⟩ := gatherBody_ok_shape env st.travelDetails u hb
    exact ⟨pairs, rfl⟩

/-- On an accessible receiver, the throwing property read agrees with the
total one. -/
theorem jsGet_accessible (v : JsVal) (k : String) (h : jsAccessible v = true) :
    jsGet v k = .ok (pureGet v k) := by
  cases v <;> first | exact absurd h (by decide) | rfl

/-- A successful analysis stage always returns exactly a `travelDetails`
object (the parsed model JSON, unvalidated) and the `gathering_data` step. -/
theorem analyze_ok_shape (env : Env) (st : AgentState) (u : StateUpdate)
    (h : analyzeUserRequest env st = .ok u) :
    ∃ td, u = { travelDetails := some td, currentStep := some "gathering_data" } := by
  unfold analyzeUserRequest at h
  cases hm : st.messages.getLast? with
  | none => simp only [hm] at h; exact Except.noConfusion h
  | some m =>
    simp only [hm] at h
    cases ha : analyzeTry env with
    | error e => simp only [ha] at h; exact Except.noConfusion h
    | ok u1 =>
      simp only [ha] at h
      unfold analyzeTry at ha
      cases he : env.extract with
      | error e => simp only [he] at ha; exact Except.noConfusion ha
      | ok s =>
        simp only [he] at ha
        cases hp : jsonParse (cleanModelJson s) with
        | none => simp only [hp] at ha; exact Except.noConfusion ha
        | some td =>
          simp only [hp] at ha
          exact ⟨td, (Except.ok.inj h).symm.trans (Except.ok.inj ha).symm⟩

/-- The templated fallback itinerary is never the empty string, whatever
the interpolated travel-detail values are. -/
theorem fallbackResponseText_ne_empty (tl fl dd tv : JsVal) :
    fallbackResponseText tl fl dd tv ≠ "" := by
  intro h
  have hlen := congrArg String.length h
  simp only [fallbackResponseText, String.length_append] at hlen
  have h0 : ("" : String).length = 0 := rfl
  have h1 : 0 < ("## Based on your request:\n" : String).length := by decide
  omega

/-- Characterization of the synthesis stage on a well-formed state: model
success passes the raw completion through as `finalResponse`, model failure
substitutes the deterministic template; both advance to `complete`. -/
theorem createItinerary_char (env : Env) (st : AgentState) (m : ChatMsg)
    (h1 : jsAccessible st.toolResults = true) (h2 : jsAccessible st.travelDetails = true)
    (h3 : st.messages.getLast? = some m) :
    createItinerary env st =
      match env.synth with
      | .ok c => .ok { finalResponse := some c, currentStep := some "complete" }
      | .error _ => .ok
          { finalResponse := some (fallbackResponseText
              (pureGet st.travelDetails "toLocation") (pureGet st.travelDetails "fromLocation")
              (pureGet st.travelDetails "departureDate") (pureGet st.travelDetails "travelers"))
            currentStep := some "complete" } := by
  unfold createItinerary
  rw [h3]
  simp only [jsGet_accessible _ _ h1, jsGet_accessible _ _ h2, buildFallbackResponse,
    jsGet_accessible, Except.bind, bind, pure, Except.pure]

/-- Any successful run from the initial state walks the four steps in
order; the final response is the model completion on synthesis success and
the non-empty deterministic template on synthesis failure. -/
theorem runAgent_ok_shape (env : Env) (msg : String) (tr : List String) (fin : AgentState)
    (hrun : runAgent env (initialAgentState msg) = .ok (tr, fin)) :
    tr = ["analyzing", "gathering_data", "creating_itinerary", "complete"] ∧
    fin.currentStep = "complete" ∧
    (∀ c, env.synth = .ok c → fin.finalResponse = c) ∧
    (∀ e, env.synth = .error e → fin.finalResponse ≠ "") := by
  unfold runAgent at hrun
  cases ha : analyzeUserRequest env (initialAgentState msg) with
  | error e => simp only [ha, Except.bind, bind] at hrun; exact Except.noConfusion hrun
  | ok u1 =>
    obtain ⟨td, rfl⟩ := analyze_ok_shape env _ u1 ha
    simp only [ha, Except.bind, bind] at hrun
    have hs1 : applyUpdate (initialAgentState msg)
        { travelDetails := some td, currentStep := some "gathering_data" } =
        { messages := [⟨"user", msg⟩], travelDetails := objMerge (.obj []) td,
          toolResults := .obj [], currentStep := "gathering_data", finalResponse := "" } := by
      simp [applyUpdate, initialAgentState]
    rw [hs1] at hrun
    obtain ⟨pairs, hg⟩ := gather_shape env
      { messages := [⟨"user", msg⟩], travelDetails := objMerge (.obj []) td,
        toolResults := .obj [], currentStep := "gathering_data", finalResponse := "" }
    rw [hg] at hrun
    have hs2 : applyUpdate
        { messages := [⟨"user", msg⟩], travelDetails := objMerge (.obj []) td,
          toolResults := .obj [], currentStep := "gathering_data", finalResponse := "" }
        { toolResults := some (.obj pairs), currentStep := some "creating_itinerary" } =
        { messages := [⟨"user", msg⟩], travelDetails := objMerge (.obj []) td,
          toolResults := objMerge (.obj []) (.obj pairs), currentStep := "creating_itinerary",
          finalResponse := "" } := by
      simp [applyUpdate]
    rw [hs2] at hrun
    have hacc1 : jsAccessible (objMerge (JsVal.obj []) (JsVal.obj pairs)) = true := rfl
    have hacc2 : jsAccessible (objMerge (JsVal.obj []) td) = true := rfl
    have hc := createItinerary_char env
      { messages := [⟨"user", msg⟩], travelDetails := objMerge (.obj []) td,
        toolResults := objMerge (.obj []) (.obj pairs), currentStep := "creating_itinerary",
        finalResponse := "" } ⟨"user", msg⟩ hacc1 hacc2 rfl
    rw [hc] at hrun
    cases hsy : env.synth with
    | ok c =>
      simp only [hsy, Except.bind, bind] at hrun
      have hp := Except.ok.inj hrun
      injection hp with htr hfin
      subst htr
      subst hfin
      refine ⟨rfl, rfl, fun c2 hc2 => ?_, fun e he => Except.noConfusion he⟩
      have hcc : c = c2 := Except.ok.inj hc2
      simp [applyUpdate, hcc]
    | error e =>
      simp only [hsy, Except.bind, bind] at hrun
      have hp := Except.ok.inj hrun
      injection hp with htr hfin
      subst htr
      subst hfin
      refine ⟨rfl, rfl, fun c2 hc2 => Except.noConfusion hc2, fun e2 he2 => ?_⟩
      simpa [applyUpdate] using fallbackResponseText_ne_empty
        (pureGet (objMerge (.obj []) td) "toLocation")
        (pureGet (objMerge (.obj []) td) "fromLocation")
        (pureGet (objMerge (.obj []) td) "departureDate")
        (pureGet (objMerge (.obj []) td) "travelers")

/-- `true` exactly on string values. -/
def isStrV : JsVal → Bool
  | .str _ => true
  | _ => false

/-- `true` exactly on number values. -/
def isNumV : JsVal → Bool
  | .num _ => true
  | _ => false

/-- `true` exactly on array values. -/
def isArrV : JsVal → Bool
  | .arr _ => true
  | _ => false

/-- All nine `TravelDetails` fields are present with the right kind of
value: seven strings, a numeric `travelers`, a `preferences` array. -/
def nineFieldsPopulated (td : JsVal) : Bool :=
  isStrV (pureGet td "fromLocation") && isStrV (pureGet td "toLocation") &&
    isStrV (pureGet td "departureDate") && isStrV (pureGet td "returnDate") &&
      isNumV (pureGet td "travelers") && isStrV (pureGet td "budget") &&
        isArrV (pureGet td "preferences") && isStrV (pureGet td "duration") &&
          isStrV (pureGet td "specialRequirements")

set_option maxHeartbeats 2000000 in
/-- The heuristic extractor populates all nine fields on every input. -/
theorem nineFields_always (m : String) :
    nineFieldsPopulated (extractBasicTravelInfo m) = true := by
  unfold extractBasicTravelInfo
  cases h1 : findFromTo m <;> cases h2 : findDestination m <;>
    cases h3 : findTravelers m <;> cases h4 : findBudget m <;>
      cases h5 : findDuration m <;>
        simp only [h1, h2, h3, h4, h5] <;>
          split_ifs <;> rfl

set_option maxHeartbeats 2000000 in
/-- When the traveler-count pattern does not match, `travelers` keeps its
default of `1`. -/
theorem travelers_default (m : String) (h3 : findTravelers m = none) :
    pureGet (extractBasicTravelInfo m) "travelers" = .num 1 := by
  unfold extractBasicTravelInfo
  cases h1 : findFromTo m <;> cases h2 : findDestination m <;>
    cases h4 : findBudget m <;> cases h5 : findDuration m <;>
      simp only [h1, h2, h3, h4, h5] <;>
        split_ifs <;> rfl

set_option maxHeartbeats 2000000 in
/-- When the from/to pattern does not match, `fromLocation` keeps the
sentinel. -/
theorem fromLocation_sentinel (m : String) (h1 : findFromTo m = none) :
    pureGet (extractBasicTravelInfo m) "fromLocation" = .str "not specified" := by
  unfold extractBasicTravelInfo
  cases h2 : findDestination m <;> cases h3 : findTravelers m <;>
    cases h4 : findBudget m <;> cases h5 : findDuration m <;>
      simp only [h1, h2, h3, h4, h5] <;>
        split_ifs <;> rfl

/-- Looking up the key just set in a string-keyed map returns the new
value. -/
theorem alistLookup_set_self (ps : List (String × α)) (k : String) (v : α) :
    alistLookup (alistSet ps k v) k = some v := by
  induction ps with
  | nil => simp [alistSet, alistLookup]
  | cons p ps ih =>
    obtain ⟨q, w⟩ := p
    by_cases h : k = q <;> simp [alistSet, alistLookup, h, ih]

set_option maxHeartbeats 1000000 in
/-- A successful synthesis stage always advances the step to `complete`. -/
theorem create_ok_step (env : Env) (st : AgentState) (u : StateUpdate)
    (h : createItinerary env st = .ok u) : u.currentStep = some "complete" := by
  unfold createItinerary at h
  cases hm : st.messages.getLast? with
  | none => simp only [hm] at h; exact Except.noConfusion h
  | some m =>
    simp only [hm] at h
    cases htr : st.toolResults <;>
      cases htd : st.travelDetails <;>
        cases hsy : env.synth <;>
          simp only [htr, htd, hsy, jsGet, buildFallbackResponse, Except.bind, bind, pure,
            Except.pure] at h <;>
            first
              | exact Except.noConfusion h
              | exact (congrArg StateUpdate.currentStep (Except.ok.inj h).symm).trans rfl

/-- A benign environment: the extraction model answers with the JSON text
of an empty object, the synthesis model with `done`, every provider with a
small success value. -/
def envOkA : Env :=
  { extract := .ok "\x7b\x7d"
    synth := .ok "done"
    weather := fun _ _ => .ok (.str "w")
    flights := fun _ _ _ _ _ => .ok (.str "f")
    hotels := fun _ _ _ _ => .ok (.str "h")
    attractions := fun _ _ => .ok (.str "a")
    restaurants := fun _ _ _ => .ok (.str "r") }

/-- The benign environment with the extraction model unavailable. -/
def envModelDown : Env := { envOkA with extract := .error "ModelUnavailable" }

/-- The benign environment with the synthesis model unavailable. -/
def envSynthDown : Env := { envOkA with synth := .error "ModelUnavailable" }

/-- The benign environment whose synthesis model returns an empty
completion. -/
def envSynthEmpty : Env := { envOkA with synth := .ok "" }

/-- The benign environment with the weather provider forced to fail. -/
def envWeatherDown : Env := { envOkA with weather := fun _ _ => .error "timeout" }

/-- The benign environment whose restaurant provider echoes back the price
tier it was given. -/
def envPriceProbe : Env := { envOkA with restaurants := fun _ _ pr => .ok (.str pr) }

/-- A mid-pipeline state carrying the given `travelDetails`. -/
def stWith (td : JsVal) : AgentState :=
  { messages := [⟨"user", "x"⟩], travelDetails := td, toolResults := .obj []
    currentStep := "gathering_data", finalResponse := "" }

/-- A fully populated `TravelDetails` record for Paris. -/
def tdParis : JsVal := .obj
  [("fromLocation", .str "London"), ("toLocation", .str "Paris"),
   ("departureDate", .str "2025-07-01"), ("returnDate", .str "not specified"),
   ("travelers", .num 2), ("budget", .str "not specified"),
   ("preferences", .arr []), ("duration", .str "not specified"),
   ("specialRequirements", .str "not specified")]

/-- A `TravelDetails` record whose destination is the empty string (a value
different from the sentinel yet falsy). -/
def tdEmptyLoc : JsVal := .obj
  [("fromLocation", .str "Paris"), ("toLocation", .str ""),
   ("departureDate", .str "2025-07-01"), ("returnDate", .str "not specified"),
   ("travelers", .num 1), ("budget", .str "not specified"),
   ("preferences", .arr []), ("duration", .str "not specified"),
   ("specialRequirements", .str "not specified")]

/-- A `TravelDetails` record for Paris with the given budget value. -/
def tdBudget (b : JsVal) : JsVal := .obj
  [("fromLocation", .str "not specified"), ("toLocation", .str "Paris"),
   ("departureDate", .str "not specified"), ("returnDate", .str "not specified"),
   ("travelers", .num 1), ("budget", b),
   ("preferences", .arr []), ("duration", .str "not specified"),
   ("specialRequirements", .str "not specified")]

/-- The destination-only scenario message of the specification. -/
def msgOrlando : String :=
  "Family trip to Orlando for Disney World, traveling with 2 kids in August"

/-- What the heuristic extractor actually produces on `msgOrlando`: the
greedy destination capture runs to the comma. -/
def tdOrlando : JsVal := .obj
  [("fromLocation", .str "not specified"),
   ("toLocation", .str "Orlando for Disney World"),
   ("departureDate", .str "not specified"), ("returnDate", .str "not specified"),
   ("travelers", .num 1), ("budget", .str "not specified"),
   ("preferences", .arr []), ("duration", .str "not specified"),
   ("specialRequirements", .str "family trip")]

/-- The step trace of a completed run. -/
def fourSteps : List String :=
  ["analyzing", "gathering_data", "creating_itinerary", "complete"]

/-- The final state of a run of `envOkA` on message `hi`. -/
def finOkA : AgentState :=
  { messages := [⟨"user", "hi"⟩], travelDetails := .obj []
    toolResults := .obj [("flights", .str "f")], currentStep := "complete"
    finalResponse := "done" }

/-- The final state of a run of `envSynthDown` on message `hi`: the
complete templated fallback response. -/
def finFallback : AgentState :=
  { messages := [⟨"user", "hi"⟩], travelDetails := .obj []
    toolResults := .obj [("flights", .str "f")], currentStep := "complete"
    finalResponse := fallbackResponseText .undefined .undefined .undefined .undefined }

/-- The final state of a run of `envSynthEmpty` on message `hi`. -/
def finEmpty : AgentState :=
  { messages := [⟨"user", "hi"⟩], travelDetails := .obj []
    toolResults := .obj [("flights", .str "f")], currentStep := "complete"
    finalResponse := "" }

/-- C1: failure isolation in the Data Gathering Coordinator.  For every
travel-details input: the coordinator never raises and always advances to
`creating_itinerary` (also through its outer catch); each capability key
carries exactly its own attempt's value or, when that attempt fails, its
own error marker — so forcing one adapter to fail changes only that key
while every other applicable capability is still attempted and populated;
and a wholesale catastrophic failure produces the top-level
`toolResults.error` update that still proceeds to synthesis. -/
theorem gather_failure_isolation (env : Env) (st : AgentState) (c : Capability)
    (h : jsAccessible st.travelDetails = true) :
    (∀ st2 : AgentState, (gatherTravelData env st2).currentStep = some "creating_itinerary") ∧
    toolResultLookup (gatherTravelData env st) (capKey c) =
      (if capApplicable st.travelDetails c then
        some (exceptD (capAttempt env st.travelDetails c) (capErrorMarker (capErrText c)))
       else none) ∧
    (∀ e, capAttempt env st.travelDetails c = .error e →
      capApplicable st.travelDetails c = true →
      toolResultLookup (gatherTravelData env st) (capKey c)
        = some (capErrorMarker (capErrText c))) ∧
    (∀ e, (gatherCatchUpdate e).currentStep = some "creating_itinerary" ∧
      toolResultLookup (gatherCatchUpdate e) "error"
        = some (.str "Failed to gather travel data")) := by
  refine ⟨gather_step_always env, gather_char env st h c, fun e he ha => ?_, fun e => ⟨rfl, rfl⟩⟩
  rw [gather_char env st h c, if_pos ha, he]
  rfl

/-- Witness for C1: with only the weather provider forced down, weather
carries its error marker while hotels and flights hold their providers'
values. -/
theorem gather_failure_isolation_witness :
    jsAccessible (stWith tdParis).travelDetails = true ∧
    toolResultLookup (gatherTravelData envWeatherDown (stWith tdParis)) (capKey .weather)
      = some (capErrorMarker "Weather data unavailable") ∧
    toolResultLookup (gatherTravelData envWeatherDown (stWith tdParis)) (capKey .hotels)
      = some (.str "h") ∧
    toolResultLookup (gatherTravelData envWeatherDown (stWith tdParis)) (capKey .flights)
      = some (.str "f") :=
  ⟨rfl,
   (gather_failure_isolation envWeatherDown (stWith tdParis) .weather rfl).2.2.1 "timeout" rfl rfl,
   by rw [(gather_failure_isolation envWeatherDown (stWith tdParis) .hotels rfl).2.1]; rfl,
   by rw [(gather_failure_isolation envWeatherDown (stWith tdParis) .flights rfl).2.1]; rfl⟩

/-- C4 (amended): key presence in `ToolResults` is exactly the code's
gating condition — a truthy, non-sentinel `toLocation` for weather,
hotels, attractions and restaurants, and the three non-sentinel fields for
flights (with no truthiness test). -/
theorem gather_gating_preconditions (env : Env) (st : AgentState)
    (h : jsAccessible st.travelDetails = true) :
    ((toolResultLookup (gatherTravelData env st) "weather").isSome
      = toLocationCond (pureGet st.travelDetails "toLocation")) ∧
    ((toolResultLookup (gatherTravelData env st) "hotels").isSome
      = toLocationCond (pureGet st.travelDetails "toLocation")) ∧
    ((toolResultLookup (gatherTravelData env st) "attractions").isSome
      = toLocationCond (pureGet st.travelDetails "toLocation")) ∧
    ((toolResultLookup (gatherTravelData env st) "restaurants").isSome
      = toLocationCond (pureGet st.travelDetails "toLocation")) ∧
    ((toolResultLookup (gatherTravelData env st) "flights").isSome
      = (¬ isNotSpecified (pureGet st.travelDetails "fromLocation") &&
          ¬ isNotSpecified (pureGet st.travelDetails "toLocation") &&
            ¬ isNotSpecified (pureGet st.travelDetails "departureDate"))) := by
  refine ⟨?_, ?_, ?_, ?_, ?_⟩
  · show (toolResultLookup (gatherTravelData env st) (capKey .weather)).isSome = _
    rw [gather_char env st h .weather]
    simp only [capApplicable]
    split_ifs with hc <;> simp_all
  · show (toolResultLookup (gatherTravelData env st) (capKey .hotels)).isSome = _
    rw [gather_char env st h .hotels]
    simp only [capApplicable]
    split_ifs with hc <;> simp_all
  · show (toolResultLookup (gatherTravelData env st) (capKey .attractions)).isSome = _
    rw [gather_char env st h .attractions]
    simp only [capApplicable]
    split_ifs with hc <;> simp_all
  · show (toolResultLookup (gatherTravelData env st) (capKey .restaurants)).isSome = _
    rw [gather_char env st h .restaurants]
    simp only [capApplicable]
    split_ifs with hc <;> simp_all
  · show (toolResultLookup (gatherTravelData env st) (capKey .flights)).isSome = _
    rw [gather_char env st h .flights]
    simp only [capApplicable]
    split_ifs with hc <;> simp_all

/-- Witness for C4 (amended) at a fully populated record. -/
theorem gather_gating_preconditions_witness :
    jsAccessible (stWith tdParis).travelDetails = true ∧
    (toolResultLookup (gatherTravelData envOkA (stWith tdParis)) "weather").isSome
      = toLocationCond (pureGet tdParis "toLocation") ∧
    (toolResultLookup (gatherTravelData envOkA (stWith tdParis)) "flights").isSome = true :=
  ⟨rfl,
   (gather_gating_preconditions envOkA (stWith tdParis) rfl).1,
   by rw [(gather_gating_preconditions envOkA (stWith tdParis) rfl).2.2.2.2]; rfl⟩

/-- Counterexample to C4 as stated: with `toLocation = ""` (different from
the sentinel, so the claim demands all four location-gated capabilities be
invoked), weather, hotels, attractions and restaurants are all skipped —
only flights, whose gate has no truthiness test, runs. -/
theorem gather_gating_empty_toLocation :
    isNotSpecified (pureGet tdEmptyLoc "toLocation") = false ∧
    toolResultLookup (gatherTravelData envOkA (stWith tdEmptyLoc)) "weather" = none ∧
    toolResultLookup (gatherTravelData envOkA (stWith tdEmptyLoc)) "hotels" = none ∧
    toolResultLookup (gatherTravelData envOkA (stWith tdEmptyLoc)) "attractions" = none ∧
    toolResultLookup (gatherTravelData envOkA (stWith tdEmptyLoc)) "restaurants" = none ∧
    toolResultLookup (gatherTravelData envOkA (stWith tdEmptyLoc)) "flights" = some (.str "f") :=
  ⟨rfl, rfl, rfl, rfl, rfl, rfl⟩

/-- C8 (amended): a parsed budget above 2000 yields `luxury` and a parsed
budget at most 2000 yields `mid-range`, but a sentinel, missing, falsy or
unparsable budget yields the empty price tier `""` (not `mid-range`): the
`catch` that would default it is unreachable.  The tier reaching the
restaurants adapter is exactly `restaurantPriceRange` of the budget. -/
theorem restaurant_price_tier :
    restaurantPriceRange (.str "2500") = "luxury" ∧
    restaurantPriceRange (.str "2,500") = "luxury" ∧
    restaurantPriceRange (.str "1800") = "mid-range" ∧
    restaurantPriceRange (.str "not specified") = "" ∧
    restaurantPriceRange (.str "cheap") = "" ∧
    restaurantPriceRange .undefined = "" ∧
    (∀ b : JsVal, restaurantPriceRange b = "luxury" ∨ restaurantPriceRange b = "mid-range"
      ∨ restaurantPriceRange b = "") ∧
    (∀ b : JsVal,
      toolResultLookup (gatherTravelData envPriceProbe (stWith (tdBudget b))) "restaurants"
        = some (.str (restaurantPriceRange b))) := by
  refine ⟨rfl, rfl, rfl, rfl, rfl, rfl, fun b => ?_, fun b => rfl⟩
  unfold restaurantPriceRange
  split_ifs with h1
  · cases hp : parseIntJs (stripCommaDollar (jsToString b)) with
    | none => exact Or.inr (Or.inr rfl)
    | some n =>
      by_cases hn : n > 2000
      · exact Or.inl (by simp [hn])
      · exact Or.inr (Or.inl (by simp [hn]))
  · exact Or.inr (Or.inr rfl)

/-- Counterexample to C8 as stated: budgets `"not specified"` and
`"cheap"` produce the empty tier, which is not `"mid-range"`, and that
empty tier is what the restaurants adapter receives. -/
theorem price_tier_unparsable_not_midrange :
    restaurantPriceRange (.str "not specified") = "" ∧
    restaurantPriceRange (.str "cheap") = "" ∧
    ("" = "mid-range") = False ∧
    toolResultLookup (gatherTravelData envPriceProbe (stWith (tdBudget (.str "not specified"))))
      "restaurants" = some (.str "") :=
  ⟨rfl, rfl, by simp, rfl⟩

/-- C9 (amended): on the destination-only scenario message the heuristic
extractor leaves `fromLocation` at the sentinel, sets
`specialRequirements` to `family trip`, leaves `travelers` at 1 (the
`2 kids` phrase does not match the adult-counting pattern), and sets
`toLocation` to the greedy capture `Orlando for Disney World`; gathering
on that result skips flights but attempts weather, hotels, attractions and
restaurants, under any provider behaviour. -/
theorem orlando_destination_scenario (env : Env) :
    extractBasicTravelInfo msgOrlando = tdOrlando ∧
    pureGet tdOrlando "fromLocation" = .str "not specified" ∧
    pureGet tdOrlando "specialRequirements" = .str "family trip" ∧
    pureGet tdOrlando "travelers" = .num 1 ∧
    toolResultLookup (gatherTravelData env (stWith tdOrlando)) "flights" = none ∧
    (toolResultLookup (gatherTravelData env (stWith tdOrlando)) "weather").isSome = true ∧
    (toolResultLookup (gatherTravelData env (stWith tdOrlando)) "hotels").isSome = true ∧
    (toolResultLookup (gatherTravelData env (stWith tdOrlando)) "attractions").isSome = true ∧
    (toolResultLookup (gatherTravelData env (stWith tdOrlando)) "restaurants").isSome = true :=
  ⟨rfl, rfl, rfl, rfl, rfl, rfl, rfl, rfl, rfl⟩

/-- Counterexample to C9 as stated: the extracted `toLocation` is
`Orlando for Disney World` (the capture runs to the comma), not
`Orlando`. -/
theorem orlando_capture_not_exact :
    pureGet (extractBasicTravelInfo msgOrlando) "toLocation"
      = .str "Orlando for Disney World" ∧
    ("Orlando for Disney World" = "Orlando") = False :=
  ⟨rfl, by simp⟩

/-- C2 (code bug): when the extraction model call fails (or its output
does not parse), `analyzeUserRequest` does not return the heuristic
extraction — its `catch` block logs `result?.content` with `result` scoped
to the `try` block, so the handler raises a `ReferenceError` that
propagates out of the extractor and aborts the run, while the heuristic
fallback it was meant to return (fully populated, last conjunct) is dead
code. -/
theorem analyze_catch_reference_error :
    analyzeUserRequest envModelDown (initialAgentState "hello")
      = .error "ReferenceError: result is not defined" ∧
    runAgent envModelDown (initialAgentState "hello")
      = .error "ReferenceError: result is not defined" ∧
    nineFieldsPopulated (extractBasicTravelInfo "hello") = true :=
  ⟨rfl, rfl, nineFields_always "hello"⟩

/-- C3 (amended): any run that reaches `complete` has
`finalResponse` equal to the synthesis model's completion on model
success, and the non-empty deterministic template on model failure; so the
terminal response is non-empty unless the model itself returned an empty
completion. -/
theorem run_complete_response (env : Env) (msg : String) (tr : List String)
    (fin : AgentState) (hrun : runAgent env (initialAgentState msg) = .ok (tr, fin)) :
    fin.currentStep = "complete" ∧
    (∀ e, env.synth = .error e → fin.finalResponse ≠ "") ∧
    (∀ c, env.synth = .ok c → fin.finalResponse = c) :=
  have h := runAgent_ok_shape env msg tr fin hrun
  ⟨h.2.1, h.2.2.2, h.2.2.1⟩

/-- Witness for C3 (amended): with the synthesis model down the run
completes with the non-empty templated response. -/
theorem run_complete_response_witness :
    runAgent envSynthDown (initialAgentState "hi") = .ok (fourSteps, finFallback) ∧
    finFallback.currentStep = "complete" ∧
    finFallback.finalResponse ≠ "" :=
  ⟨rfl,
   (run_complete_response envSynthDown "hi" fourSteps finFallback rfl).1,
   (run_complete_response envSynthDown "hi" fourSteps finFallback rfl).2.1 "ModelUnavailable" rfl⟩

/-- Counterexample to C3 as stated: when the synthesis model succeeds with
an empty completion, the run reaches `complete` with an empty
`finalResponse`. -/
theorem run_complete_empty_finalResponse :
    runAgent envSynthEmpty (initialAgentState "hi") = .ok (fourSteps, finEmpty) ∧
    finEmpty.currentStep = "complete" ∧
    finEmpty.finalResponse = "" :=
  ⟨rfl, rfl, rfl⟩

/-- C6: every completed run observes `currentStep` as exactly
`analyzing, gathering_data, creating_itinerary, complete` in that order,
and each stage function always advances the step to the next value under
the last-write-wins reducer. -/
theorem run_step_progression (env : Env) (msg : String) (tr : List String)
    (fin : AgentState) (hrun : runAgent env (initialAgentState msg) = .ok (tr, fin)) :
    tr = ["analyzing", "gathering_data", "creating_itinerary", "complete"] ∧
    (∀ u, analyzeUserRequest env (initialAgentState msg) = .ok u →
      u.currentStep = some "gathering_data") ∧
    (∀ st2 : AgentState, (gatherTravelData env st2).currentStep = some "creating_itinerary") ∧
    (∀ st2 u, createItinerary env st2 = .ok u → u.currentStep = some "complete") :=
  ⟨(runAgent_ok_shape env msg tr fin hrun).1,
   fun u hu => by
     obtain ⟨td, rfl⟩ := analyze_ok_shape env _ u hu
     rfl,
   gather_step_always env,
   fun st2 u hu => create_ok_step env st2 u hu⟩

/-- Witness for C6: a concrete completed run and its four-step trace. -/
theorem run_step_progression_witness :
    runAgent envOkA (initialAgentState "hi") = .ok (fourSteps, finOkA) ∧
    fourSteps = ["analyzing", "gathering_data", "creating_itinerary", "complete"] :=
  ⟨rfl, (run_step_progression envOkA "hi" fourSteps finOkA rfl).1⟩

/-- C7 (amended): the heuristic extractor returns, for every input
including the empty string, a record with all nine fields populated —
string fields as strings (the sentinel when their pattern does not match)
and `travelers` a number defaulting to 1.  The guarantee covers the
heuristic path; the model path returns parsed JSON unvalidated. -/
theorem detail_extractor_nine_fields (m : String) :
    nineFieldsPopulated (extractBasicTravelInfo m) = true ∧
    (findTravelers m = none → pureGet (extractBasicTravelInfo m) "travelers" = .num 1) ∧
    (findFromTo m = none →
      pureGet (extractBasicTravelInfo m) "fromLocation" = .str "not specified") :=
  ⟨nineFields_always m, travelers_default m, fromLocation_sentinel m⟩

/-- Witness for C7 (amended) at the empty message. -/
theorem detail_extractor_nine_fields_witness :
    findTravelers "" = none ∧
    nineFieldsPopulated (extractBasicTravelInfo "") = true ∧
    pureGet (extractBasicTravelInfo "") "travelers" = .num 1 :=
  ⟨rfl, (detail_extractor_nine_fields "").1, (detail_extractor_nine_fields "").2.1 rfl⟩

/-- Counterexample to C7 as stated: when the model answers with the JSON
text of an empty object, the extractor returns it as `travelDetails`
without validation, so the result has none of the nine fields. -/
theorem model_path_missing_fields :
    analyzeUserRequest envOkA (initialAgentState "plan a trip")
      = .ok { travelDetails := some (.obj []), currentStep := some "gathering_data" } ∧
    nineFieldsPopulated (.obj []) = false :=
  ⟨rfl, rfl⟩

/-- C10: the chat handler writes only the pre-run initial agent state
(step `analyzing`, empty details, empty tool results, empty response) into
the `agentStates` map and never writes the final state back, so after any
turn — successful or failed — the agent-state route returns that initial
state. -/
theorem chat_preserves_initial_agent_state (env : Env) (srv : ServerState)
    (msg convId : String) (h : msg ≠ "") :
    alistLookup ((handleChat env srv msg convId).1).agentStates convId
      = some (initialAgentState msg) ∧
    getAgentStateRoute ((handleChat env srv msg convId).1) convId
      = .ok (initialAgentState msg) ∧
    (initialAgentState msg).currentStep = "analyzing" ∧
    (initialAgentState msg).travelDetails = .obj [] ∧
    (initialAgentState msg).toolResults = .obj [] ∧
    (initialAgentState msg).finalResponse = "" ∧
    (initialAgentState msg).messages = [⟨"user", msg⟩] := by
  have hmain : alistLookup ((handleChat env srv msg convId).1).agentStates convId
      = some (initialAgentState msg) := by
    unfold handleChat
    rw [if_neg h]
    cases hr : runAgent env (initialAgentState msg) with
    | error e =>
      by_cases he : (alistLookup srv.conversations convId).isSome <;>
        simp [he, alistLookup_set_self]
    | ok p =>
      simp [alistLookup_set_self]
  refine ⟨hmain, ?_, rfl, rfl, rfl, rfl, rfl⟩
  unfold getAgentStateRoute
  rw [hmain]

/-- Witness for C10 on a fresh server. -/
theorem chat_preserves_initial_agent_state_witness :
    ("hi" : String) ≠ "" ∧
    alistLookup ((handleChat envOkA ⟨[], []⟩ "hi" "c1").1).agentStates "c1"
      = some (initialAgentState "hi") ∧
    getAgentStateRoute ((handleChat envOkA ⟨[], []⟩ "hi" "c1").1) "c1"
      = .ok (initialAgentState "hi") :=
  ⟨by decide,
   (chat_preserves_initial_agent_state envOkA ⟨[], []⟩ "hi" "c1" (by decide)).1,
   (chat_preserves_initial_agent_state envOkA ⟨[], []⟩ "hi" "c1" (by decide)).2.1⟩

/-- C5: every capability adapter (places, hotels, restaurants, flights,
weather) degrades to its fixed-shape fallback payload — annotated with
`dataSource: "Fallback recommendations"` — whenever its try-block fails,
and the try-block does fail on missing credentials and on a provider
error; the adapters are total functions, so no exception reaches the
caller. -/
theorem capability_adapters_fallback :
    (∀ (q loc : JsVal) (key : Option String) (http : Except String JsVal) (e : String),
        placesTry loc key http = .error e →
        searchPlacesFunc q loc key http = stringifyJs (placesFallback loc)) ∧
    (∀ (loc : JsVal) (http : Except String JsVal),
        placesTry loc none http = .error "No API key available") ∧
    (∀ (loc : JsVal) (k e : String), placesTry loc (some k) (.error e) = .error e) ∧
    (∀ loc : JsVal,
        pureGet (placesFallback loc) "dataSource" = .str "Fallback recommendations") ∧
    (∀ (loc ci co ad : JsVal) (key : Option String) (http : Except String JsVal) (e : String),
        hotelsTry loc ci co (paramD ad (.num 2)) key http = .error e →
        searchHotelsFunc loc ci co ad key http
          = stringifyJs (hotelsFallback loc ci co (paramD ad (.num 2)))) ∧
    (∀ (loc ci co ad : JsVal) (http : Except String JsVal),
        hotelsTry loc ci co ad none http = .error "No API key available") ∧
    (∀ (loc ci co ad : JsVal) (k e : String),
        hotelsTry loc ci co ad (some k) (.error e) = .error e) ∧
    (∀ loc ci co ad : JsVal,
        pureGet (hotelsFallback loc ci co ad) "dataSource" = .str "Fallback recommendations") ∧
    (∀ (loc cu pr : JsVal) (key : Option String) (http : Except String JsVal) (e : String),
        restaurantsTry loc (paramD cu (.str "")) (paramD pr (.str "")) key http = .error e →
        searchRestaurantsFunc loc cu pr key http
          = stringifyJs (restaurantsFallback loc (paramD cu (.str "")) (paramD pr (.str "")))) ∧
    (∀ (loc cu pr : JsVal) (http : Except String JsVal),
        restaurantsTry loc cu pr none http = .error "No API key available") ∧
    (∀ (loc cu pr : JsVal) (k e : String),
        restaurantsTry loc cu pr (some k) (.error e) = .error e) ∧
    (∀ loc cu pr : JsVal,
        pureGet (restaurantsFallback loc cu pr) "dataSource" = .str "Fallback recommendations") ∧
    (∀ (fl tl dd rd ad : JsVal) (key : Option String) (http : Except String JsVal) (e : String),
        flightsTry fl tl dd rd (paramD ad (.num 1)) key http = .error e →
        searchFlightsFunc fl tl dd rd ad key http
          = stringifyJs (flightsFallback fl tl dd rd (paramD ad (.num 1)))) ∧
    (∀ (fl tl dd rd ad : JsVal) (http : Except String JsVal),
        flightsTry fl tl dd rd ad none http = .error "No API key available") ∧
    (∀ (fl tl dd rd ad : JsVal) (k e : String),
        flightsTry fl tl dd rd ad (some k) (.error e) = .error e) ∧
    (∀ fl tl dd rd ad : JsVal,
        pureGet (flightsFallback fl tl dd rd ad) "dataSource"
          = .str "Fallback recommendations") ∧
    (∀ (loc date : JsVal) (key : Option String) (http : Except String JsVal) (e : String),
        weatherTry loc date key http = .error e →
        searchWeatherFunc loc date key http = stringifyJs (weatherFallback loc date)) ∧
    (∀ (loc date : JsVal) (http : Except String JsVal),
        weatherTry loc date none http = .error "No API key available") ∧
    (∀ (loc date : JsVal) (k e : String), weatherTry loc date (some k) (.error e) = .error e) ∧
    (∀ loc date : JsVal,
        pureGet (weatherFallback loc date) "dataSource" = .str "Fallback recommendations") := by
  refine ⟨?_, fun _ _ => rfl, fun _ _ _ => rfl, fun _ => rfl,
          ?_, fun _ _ _ _ _ => rfl, fun _ _ _ _ _ _ => rfl, fun _ _ _ _ => rfl,
          ?_, fun _ _ _ _ => rfl, fun _ _ _ _ _ => rfl, fun _ _ _ => rfl,
          ?_, fun _ _ _ _ _ _ => rfl, fun _ _ _ _ _ _ _ => rfl, fun _ _ _ _ _ => rfl,
          ?_, fun _ _ _ => rfl, fun _ _ _ _ => rfl, fun _ _ => rfl⟩
  · intro q loc key http e h
    unfold searchPlacesFunc
    rw [h]
  · intro loc ci co ad key http e h
    simp only [searchHotelsFunc]
    rw [h]
  · intro loc cu pr key http e h
    simp only [searchRestaurantsFunc]
    rw [h]
  · intro fl tl dd rd ad key http e h
    simp only [searchFlightsFunc]
    rw [h]
  · intro loc date key http e h
    unfold searchWeatherFunc
    rw [h]

/-- Witness for C5: concrete fallback outputs for a malformed payload
(places) and missing credentials (the other four), plus the data-source
marker. -/
theorem capability_adapters_fallback_witness :
    placesTry (.str "Paris") (some "k") (.ok .null)
      = .error "TypeError: Cannot read properties of null" ∧
    searchPlacesFunc (.str "q") (.str "Paris") (some "k") (.ok .null)
      = stringifyJs (placesFallback (.str "Paris")) ∧
    searchWeatherFunc (.str "Paris") .undefined none (.ok (.obj []))
      = stringifyJs (weatherFallback (.str "Paris") .undefined) ∧
    searchHotelsFunc (.str "Paris") .undefined .undefined .undefined none (.ok (.obj []))
      = stringifyJs (hotelsFallback (.str "Paris") .undefined .undefined (.num 2)) ∧
    searchRestaurantsFunc (.str "Paris") .undefined .undefined none (.ok (.obj []))
      = stringifyJs (restaurantsFallback (.str "Paris") (.str "") (.str "")) ∧
    searchFlightsFunc (.str "A") (.str "B") (.str "d") .undefined .undefined none (.ok (.obj []))
      = stringifyJs (flightsFallback (.str "A") (.str "B") (.str "d") .undefined (.num 1)) ∧
    pureGet (flightsFallback (.str "A") (.str "B") (.str "d") .undefined (.num 1)) "dataSource"
      = .str "Fallback recommendations" :=
  ⟨rfl,
   capability_adapters_fallback.1 (.str "q") (.str "Paris") (some "k") (.ok .null)
     "TypeError: Cannot read properties of null" rfl,
   (capability_adapters_fallback.2.2.2.2.2.2.2.2.2.2.2.2.2.2.2.2).1 (.str "Paris") .undefined none
     (.ok (.obj [])) "No API key available" rfl,
   (capability_adapters_fallback.2.2.2.2).1 (.str "Paris") .undefined .undefined .undefined none
     (.ok (.obj [])) "No API key available" rfl,
   (capability_adapters_fallback.2.2.2.2.2.2.2.2).1 (.str "Paris") .undefined .undefined none
     (.ok (.obj [])) "No API key available" rfl,
   (capability_adapters_fallback.2.2.2.2.2.2.2.2.2.2.2.2).1 (.str "A") (.str "B") (.str "d")
     .undefined .undefined none (.ok (.obj [])) "No API key available" rfl,
   (capability_adapters_fallback.2.2.2.2.2.2.2.2.2.2.2.2.2.2.2).1 (.str "A") (.str "B")
     (.str "d") .undefined (.num 1)⟩

/-- Counterexample to C6 as stated: a run whose extraction model call
fails aborts inside the analyze stage (the C2 ReferenceError), so it
observes only the initial `analyzing` step — never the four-value
sequence — and the analyze stage raises instead of advancing
`currentStep`. -/
theorem run_aborted_observes_only_analyzing :
    (initialAgentState "hi").currentStep = "analyzing" ∧
    analyzeUserRequest envModelDown (initialAgentState "hi")
      = .error "ReferenceError: result is not defined" ∧
    runAgent envModelDown (initialAgentState "hi")
      = .error "ReferenceError: result is not defined" :=
  ⟨rfl, rfl, rfl⟩
